import Mathlib

/-!
Verification of the RockHound-GO browser-automation scenario scripts
(`src/verification/verify_app.py`, `verify_revolutionary.py`,
`verify_app_debug.py`, `verify_fix.py`).

Each script is a straight-line sequence of Playwright calls wrapped in
`try/except/finally`.  We embed the scripts as values of a small scenario
language `Prog` (one constructor per kind of statement that occurs in the
scripts) and interpret them against an environment oracle `Env` that decides,
for every browser call, whether it succeeds or raises an exception (and with
which message), what `page.is_visible` returns, and what `page.title()` /
`page.content()` return.  The interpreter produces the trace of observable
events (stdout prints, attempted browser calls, screenshot files written,
`browser.close()`) together with the exception, if any, that escapes the
scenario function.
-/

namespace Rockhound

/-- A Playwright page/browser call as it occurs in the scripts. -/
inductive Action where
  | goto (url : String) (timeoutMs : Option Nat)
  | waitForSelector (sel : String) (timeoutMs : Nat)
  | fill (sel : String) (value : String)
  | click (sel : String)
  | screenshot (path : String)
  | getTitle
  | getContent
deriving DecidableEq

/-- An observable event of a scenario run. -/
inductive Event where
  | print (s : String)
  | tried (a : Action)
  | wrote (path : String)
  | closed
deriving DecidableEq

/-- The environment oracle: for each browser call, `res` returns `none` when
the call succeeds and `some msg` when it raises an exception with message
`msg`; `visible` is the result of `page.is_visible`; `title` and `content`
are the values returned by `page.title()` and `page.content()` when those
calls succeed. -/
structure Env where
  res : Action → Option String
  visible : String → Bool
  title : String
  content : String

/-- The scenario language: exactly the statement shapes occurring in the
four scripts.  `tryCatch body handler rest` models
`try: body  except ...: handler(msg)` followed by `rest`; the handler
receives the exception message (Python's bare `except:` ignores it). -/
inductive Prog where
  | done
  | print (s : String) (rest : Prog)
  | step (a : Action) (rest : Prog)
  | withTitle (k : String → Prog)
  | withContent (k : String → Prog)
  | askVisible (sel : String) (k : Bool → Prog)
  | tryCatch (body : Prog) (handler : String → Prog) (rest : Prog)

/-- File-system effect of a successful call: only `page.screenshot` writes. -/
def effectOf : Action → List Event
  | .screenshot p => [.wrote p]
  | _ => []

/-- Interpret a scenario program: trace of events plus the escaping
exception message, if any. -/
def exec (env : Env) : Prog → List Event × Option String
  | .done => ([], none)
  | .print s r =>
      let t := exec env r
      (Event.print s :: t.1, t.2)
  | .step a r =>
      match env.res a with
      | some m => ([Event.tried a], some m)
      | none =>
          let t := exec env r
          (Event.tried a :: (effectOf a ++ t.1), t.2)
  | .withTitle k =>
      match env.res .getTitle with
      | some m => ([Event.tried .getTitle], some m)
      | none =>
          let t := exec env (k env.title)
          (Event.tried .getTitle :: t.1, t.2)
  | .withContent k =>
      match env.res .getContent with
      | some m => ([Event.tried .getContent], some m)
      | none =>
          let t := exec env (k env.content)
          (Event.tried .getContent :: t.1, t.2)
  | .askVisible sel k => exec env (k (env.visible sel))
  | .tryCatch b h r =>
      let tb := exec env b
      match tb.2 with
      | none =>
          let tr := exec env r
          (tb.1 ++ tr.1, tr.2)
      | some m =>
          let th := exec env (h m)
          match th.2 with
          | none =>
              let tr := exec env r
              (tb.1 ++ th.1 ++ tr.1, tr.2)
          | some m2 => (tb.1 ++ th.1, some m2)

/-- The shared top-level shape of every script:
`try: body  except Exception as e: handler(e)  finally: browser.close()`.
`browser.close()` runs on every path; an exception raised by the handler
itself escapes after the close. -/
def runScenario (body : Prog) (handler : String → Prog) (env : Env) :
    List Event × Option String :=
  let tb := exec env body
  match tb.2 with
  | none => (tb.1 ++ [Event.closed], none)
  | some m =>
      let th := exec env (handler m)
      match th.2 with
      | none => (tb.1 ++ th.1 ++ [Event.closed], none)
      | some m2 => (tb.1 ++ th.1 ++ [Event.closed], some m2)

/-! ### verify_app.py -/

/-- Body of the optional auth block of `verify_app.py` (lines 18–25). -/
def appAuthBody : Prog :=
  .step (.waitForSelector "text=Access Protocol" 5000)
    (.print "Auth screen detected"
      (.step (.screenshot "verification/1_auth_screen.png")
        (.step (.fill "input[type=\"email\"]" "admin@rockhound.com")
          (.step (.fill "input[type=\"password\"]" "admin")
            (.step (.click "button:has-text(\"Initialize Session\")") .done)))))

/-- The mandatory tail of `verify_app.py` after the auth block (lines 30–49). -/
def appAfterAuth : Prog :=
  .step (.waitForSelector "text=SYSTEM ACTIVE" 10000)
    (.print "Scanner view detected"
      (.step (.screenshot "verification/2_scanner_view.png")
        (.step (.click "header div.cursor-pointer")
          (.step (.waitForSelector "text=Operative Profile" 5000)
            (.print "Profile view detected"
              (.step (.screenshot "verification/3_profile_view.png")
                (.step (.click "button:has(svg.lucide-x)")
                  (.step (.click "button:has(svg.lucide-box)")
                    (.step (.waitForSelector "text=Vault" 5000)
                      (.print "Collection view detected"
                        (.step (.screenshot "verification/4_collection_view.png")
                          .done)))))))))))

/-- The whole `try:` body of `verify_app.py` (lines 10–49). -/
def appBody : Prog :=
  .step (.goto "http://localhost:4173" none)
    (.tryCatch appAuthBody
      (fun _ => .print "Auth screen not found or already logged in" .done)
      appAfterAuth)

/-- Top-level `except Exception as e:` handler of `verify_app.py`
(lines 51–53). -/
def appHandler (m : String) : Prog :=
  .print ("Error: " ++ m) (.step (.screenshot "verification/error.png") .done)

/-- `verify_app.py`'s `verify_app`, from page creation onward. -/
def verify_app (env : Env) : List Event × Option String :=
  runScenario appBody appHandler env

/-! ### verify_revolutionary.py -/

/-- Body of the optional splash block of `verify_revolutionary.py`
(lines 14–16). -/
def revSplashBody : Prog :=
  .step (.waitForSelector "text=INITIALIZING KERNEL..." 10000)
    (.print "Splash screen detected"
      (.step (.screenshot "verification/1_splash.png") .done))

/-- Body of the optional auth block of `verify_revolutionary.py`
(lines 22–31). -/
def revAuthBody : Prog :=
  .step (.waitForSelector "text=ROCKHOUND" 10000)
    (.askVisible "button:has-text(\"Initialize Protocol\")" (fun b =>
      if b then
        .print "Auth screen detected"
          (.step (.screenshot "verification/2_auth.png")
            (.step (.fill "input[type=\"email\"]" "admin@rockhound.com")
              (.step (.fill "input[type=\"password\"]" "admin")
                (.step (.click "button:has-text(\"Authenticate\")") .done))))
      else .done))

/-- The mandatory tail of `verify_revolutionary.py` after the auth block
(lines 36–55). -/
def revAfterAuth : Prog :=
  .step (.waitForSelector "text=SYSTEM ACTIVE" 15000)
    (.print "Scanner HUD detected"
      (.step (.screenshot "verification/3_scanner_hud.png")
        (.step (.click "header button:has(svg.lucide-terminal)")
          (.step (.waitForSelector "text=Mainframe Control" 5000)
            (.print "Admin Dashboard detected"
              (.step (.screenshot "verification/4_admin_dashboard.png")
                (.step (.click "button:has(svg.lucide-arrow-left)")
                  (.step (.click "header button:has(svg.lucide-cloud-sun)")
                    (.step (.waitForSelector "text=Planetary Conditions" 5000)
                      (.print "Weather Dashboard detected"
                        (.step
                          (.screenshot "verification/5_weather_dashboard.png")
                          .done)))))))))))

/-- The whole `try:` body of `verify_revolutionary.py` (lines 9–55). -/
def revBody : Prog :=
  .print "Navigating to app..."
    (.step (.goto "http://localhost:4173" (some 60000))
      (.tryCatch revSplashBody
        (fun _ => .print "Splash screen skipped or missed" .done)
        (.tryCatch revAuthBody
          (fun _ => .print "Auth screen not found or already logged in" .done)
          revAfterAuth)))

/-- Top-level handler of `verify_revolutionary.py` (lines 57–59). -/
def revHandler (m : String) : Prog :=
  .print ("Error: " ++ m)
    (.step (.screenshot "verification/error_rev.png") .done)

/-- `verify_revolutionary.py`'s `verify_app_revolutionary`, from page
creation onward. -/
def verify_app_revolutionary (env : Env) : List Event × Option String :=
  runScenario revBody revHandler env

/-! ### verify_app_debug.py -/

/-- The diagnostics tail of `verify_app_debug.py` after its screenshot
(lines 19–29): read the title and content, print them, and report which
state the content text indicates. -/
def debugTail : Prog :=
  .withTitle (fun t =>
    .print ("Page Title: " ++ t)
      (.withContent (fun c =>
        .print ("Page Content Snippet: " ++ c.take 500)
          (if c.containsSubstr "Access Protocol" then
            .print "Auth screen detected via text check" .done
          else if c.containsSubstr "SYSTEM ACTIVE" then
            .print "Scanner view detected via text check" .done
          else .print "Unknown state" .done))))

/-- The whole `try:` body of `verify_app_debug.py` (lines 9–29). -/
def debugBody : Prog :=
  .print "Navigating to app..."
    (.step (.goto "http://localhost:4173" (some 60000))
      (.print "Waiting for body..."
        (.step (.waitForSelector "body" 10000)
          (.step (.screenshot "verification/debug_state.png") debugTail))))

/-- Top-level handler of `verify_app_debug.py` (lines 31–32): a print only,
no screenshot. -/
def debugHandler (m : String) : Prog :=
  .print ("Error: " ++ m) .done

/-- `verify_app_debug.py`'s `verify_app`, from page creation onward. -/
def verify_app_debug (env : Env) : List Event × Option String :=
  runScenario debugBody debugHandler env

/-! ### verify_fix.py -/

/-- Body of the first (auth-screen) optional wait of `verify_fix.py`
(lines 15–17). -/
def fixFirstBody : Prog :=
  .step (.waitForSelector "text=ROCKHOUND" 10000)
    (.print "App loaded successfully (Auth screen)"
      (.step (.screenshot "verification/fixed_load.png") .done))

/-- Body of the nested (scanner) fallback wait of `verify_fix.py`
(lines 21–23). -/
def fixSecondBody : Prog :=
  .step (.waitForSelector "text=SYSTEM ACTIVE" 10000)
    (.print "App loaded successfully (Scanner)"
      (.step (.screenshot "verification/fixed_load.png") .done))

/-- The innermost `except:` block of `verify_fix.py` (lines 25–27). -/
def fixStuck : Prog :=
  .print "Still stuck or unknown state"
    (.step (.screenshot "verification/still_stuck.png")
      (.withContent (fun c => .print (c.take 500) .done)))

/-- The whole `try:` body of `verify_fix.py` (lines 9–27). -/
def fixBody : Prog :=
  .print "Navigating to app..."
    (.step (.goto "http://localhost:4173" (some 60000))
      (.tryCatch fixFirstBody
        (fun _ => .tryCatch fixSecondBody (fun _ => fixStuck) .done)
        .done))

/-- Top-level handler of `verify_fix.py` (lines 29–30): a print only. -/
def fixHandler (m : String) : Prog :=
  .print ("Error: " ++ m) .done

/-- `verify_fix.py`'s `verify_fix`, from page creation onward. -/
def verify_fix (env : Env) : List Event × Option String :=
  runScenario fixBody fixHandler env

/-! ### Trace observations -/

/-- Extract the path of a file-write event, if the event is one. -/
def wroteOf : Event → Option String
  | .wrote p => some p
  | _ => none

/-- The screenshot files actually written during a trace, in order. -/
def writesOf (t : List Event) : List String :=
  t.filterMap wroteOf

/-- Extract the action of a marker-wait attempt, if the event is one. -/
def waitOf : Event → Option Action
  | .tried (.waitForSelector s n) => some (.waitForSelector s n)
  | _ => none

/-- The marker waits attempted during a trace, in order. -/
def waitsOf (t : List Event) : List Action :=
  t.filterMap waitOf

/-! ### Generic lemmas about the interpreter -/

/-- `emitsWithin P p` holds when every event that any run of `p` can ever
emit satisfies `P`; defined purely syntactically on the program. -/
def emitsWithin (P : Event → Prop) : Prog → Prop
  | .done => True
  | .print s r => P (.print s) ∧ emitsWithin P r
  | .step a r => P (.tried a) ∧ (∀ e ∈ effectOf a, P e) ∧ emitsWithin P r
  | .withTitle k => P (.tried .getTitle) ∧ ∀ s, emitsWithin P (k s)
  | .withContent k => P (.tried .getContent) ∧ ∀ s, emitsWithin P (k s)
  | .askVisible _ k => ∀ b, emitsWithin P (k b)
  | .tryCatch b h r =>
      emitsWithin P b ∧ (∀ m, emitsWithin P (h m)) ∧ emitsWithin P r

theorem exec_tryCatch_ok {env : Env} {b : Prog} {h : String → Prog} {r : Prog}
    (hb : (exec env b).2 = none) :
    exec env (.tryCatch b h r) =
      ((exec env b).1 ++ (exec env r).1, (exec env r).2) := by
  simp only [exec, hb]

theorem exec_tryCatch_caught {env : Env} {b : Prog} {h : String → Prog}
    {r : Prog} {m : String} (hb : (exec env b).2 = some m)
    (hh : (exec env (h m)).2 = none) :
    exec env (.tryCatch b h r) =
      ((exec env b).1 ++ (exec env (h m)).1 ++ (exec env r).1,
        (exec env r).2) := by
  simp only [exec, hb, hh]

theorem exec_tryCatch_rethrow {env : Env} {b : Prog} {h : String → Prog}
    {r : Prog} {m m2 : String} (hb : (exec env b).2 = some m)
    (hh : (exec env (h m)).2 = some m2) :
    exec env (.tryCatch b h r) =
      ((exec env b).1 ++ (exec env (h m)).1, some m2) := by
  simp only [exec, hb, hh]

theorem exec_emits {P : Event → Prop} :
    ∀ (p : Prog), emitsWithin P p → ∀ (env : Env),
      ∀ e ∈ (exec env p).1, P e := by
  intro p
  induction p with
  | done => intro _ env e he; simp [exec] at he
  | print s r ih =>
      intro hp env e he
      rw [emitsWithin] at hp
      simp only [exec, List.mem_cons] at he
      rcases he with rfl | he
      · exact hp.1
      · exact ih hp.2 env e he
  | step a r ih =>
      intro hp env e he
      rw [emitsWithin] at hp
      simp only [exec] at he
      cases hres : env.res a with
      | some m =>
          rw [hres] at he; simp at he; subst he; exact hp.1
      | none =>
          rw [hres] at he
          simp only [List.mem_cons, List.mem_append] at he
          rcases he with rfl | he | he
          · exact hp.1
          · exact hp.2.1 e he
          · exact ih hp.2.2 env e he
  | withTitle k ih =>
      intro hp env e he
      rw [emitsWithin] at hp
      simp only [exec] at he
      cases hres : env.res .getTitle with
      | some m => rw [hres] at he; simp at he; subst he; exact hp.1
      | none =>
          rw [hres] at he
          simp only [List.mem_cons] at he
          rcases he with rfl | he
          · exact hp.1
          · exact ih env.title (hp.2 env.title) env e he
  | withContent k ih =>
      intro hp env e he
      rw [emitsWithin] at hp
      simp only [exec] at he
      cases hres : env.res .getContent with
      | some m => rw [hres] at he; simp at he; subst he; exact hp.1
      | none =>
          rw [hres] at he
          simp only [List.mem_cons] at he
          rcases he with rfl | he
          · exact hp.1
          · exact ih env.content (hp.2 env.content) env e he
  | askVisible sel k ih =>
      intro hp env e he
      rw [emitsWithin] at hp
      simp only [exec] at he
      exact ih (env.visible sel) (hp (env.visible sel)) env e he
  | tryCatch b h r ihb ihh ihr =>
      intro hp env e he
      rw [emitsWithin] at hp
      cases hb : (exec env b).2 with
      | none =>
          rw [exec_tryCatch_ok hb] at he
          simp only [List.mem_append] at he
          rcases he with he | he
          · exact ihb hp.1 env e he
          · exact ihr hp.2.2 env e he
      | some m =>
          cases hh : (exec env (h m)).2 with
          | none =>
              rw [exec_tryCatch_caught hb hh] at he
              simp only [List.mem_append] at he
              rcases he with (he | he) | he
              · exact ihb hp.1 env e he
              · exact ihh m (hp.2.1 m) env e he
              · exact ihr hp.2.2 env e he
          | some m2 =>
              rw [exec_tryCatch_rethrow hb hh] at he
              simp only [List.mem_append] at he
              rcases he with he | he
              · exact ihb hp.1 env e he
              · exact ihh m (hp.2.1 m) env e he

theorem exec_print {env : Env} {s : String} {r : Prog} :
    exec env (.print s r) =
      (Event.print s :: (exec env r).1, (exec env r).2) := rfl

theorem exec_step_some {env : Env} {a : Action} {r : Prog} {m : String}
    (h : env.res a = some m) :
    exec env (.step a r) = ([Event.tried a], some m) := by
  simp only [exec, h]

theorem exec_step_none {env : Env} {a : Action} {r : Prog}
    (h : env.res a = none) :
    exec env (.step a r) =
      (Event.tried a :: (effectOf a ++ (exec env r).1), (exec env r).2) := by
  simp only [exec, h]

theorem runScenario_ok {env : Env} {b : Prog} {h : String → Prog}
    (hb : (exec env b).2 = none) :
    runScenario b h env = ((exec env b).1 ++ [Event.closed], none) := by
  simp only [runScenario, hb]

theorem runScenario_caught {env : Env} {b : Prog} {h : String → Prog}
    {m : String} (hb : (exec env b).2 = some m)
    (hh : (exec env (h m)).2 = none) :
    runScenario b h env =
      ((exec env b).1 ++ (exec env (h m)).1 ++ [Event.closed], none) := by
  simp only [runScenario, hb, hh]

theorem runScenario_rethrow {env : Env} {b : Prog} {h : String → Prog}
    {m m2 : String} (hb : (exec env b).2 = some m)
    (hh : (exec env (h m)).2 = some m2) :
    runScenario b h env =
      ((exec env b).1 ++ (exec env (h m)).1 ++ [Event.closed], some m2) := by
  simp only [runScenario, hb, hh]

/-- No scenario statement ever emits the `closed` event: only the `finally`
wrapper does. -/
theorem emits_ne_closed (p : Prog) :
    emitsWithin (fun e => e ≠ Event.closed) p := by
  induction p with
  | done => trivial
  | print s r ih => exact ⟨by simp, ih⟩
  | step a r ih =>
      refine ⟨by simp, ?_, ih⟩
      intro e he
      cases a <;> simp_all [effectOf]
  | withTitle k ih => exact ⟨by simp, ih⟩
  | withContent k ih => exact ⟨by simp, ih⟩
  | askVisible sel k ih => exact ih
  | tryCatch b h r ihb ihh ihr => exact ⟨ihb, ihh, ihr⟩

theorem closed_not_mem_exec (env : Env) (p : Prog) :
    Event.closed ∉ (exec env p).1 := fun hmem =>
  exec_emits p (emits_ne_closed p) env Event.closed hmem rfl

theorem count_closed_concat {t : List Event} (h : Event.closed ∉ t) :
    (t ++ [Event.closed]).count Event.closed = 1 ∧
      (t ++ [Event.closed]).getLast? = some Event.closed := by
  constructor
  · rw [List.count_append, List.count_eq_zero.mpr h]
    simp
  · simp

/-- Every run of every script closes the browser exactly once, as the very
last event of the run. -/
theorem runScenario_closes_once (b : Prog) (h : String → Prog) (env : Env) :
    ((runScenario b h env).1).count Event.closed = 1 ∧
      ((runScenario b h env).1).getLast? = some Event.closed := by
  cases hb : (exec env b).2 with
  | none =>
      rw [runScenario_ok hb]
      exact count_closed_concat (closed_not_mem_exec env b)
  | some m =>
      cases hh : (exec env (h m)).2 with
      | none =>
          rw [runScenario_caught hb hh]
          refine count_closed_concat ?_
          intro hmem
          rcases List.mem_append.mp hmem with hm | hm
          · exact closed_not_mem_exec env b hm
          · exact closed_not_mem_exec env (h m) hm
      | some m2 =>
          rw [runScenario_rethrow hb hh]
          refine count_closed_concat ?_
          intro hmem
          rcases List.mem_append.mp hmem with hm | hm
          · exact closed_not_mem_exec env b hm
          · exact closed_not_mem_exec env (h m) hm

/-- C1: for every scenario script and every environment (hence every
execution path — normal completion, a mandatory-step timeout, or any other
exception raised after the page is created), `browser.close()` is executed
exactly once, and as the final event before the scenario function returns:
no browser resource is leaked on success or on failure. -/
theorem browser_closed_exactly_once (env : Env) :
    (((verify_app env).1).count Event.closed = 1 ∧
      ((verify_app env).1).getLast? = some Event.closed) ∧
    (((verify_app_revolutionary env).1).count Event.closed = 1 ∧
      ((verify_app_revolutionary env).1).getLast? = some Event.closed) ∧
    (((verify_app_debug env).1).count Event.closed = 1 ∧
      ((verify_app_debug env).1).getLast? = some Event.closed) ∧
    (((verify_fix env).1).count Event.closed = 1 ∧
      ((verify_fix env).1).getLast? = some Event.closed) :=
  ⟨runScenario_closes_once appBody appHandler env,
    runScenario_closes_once revBody revHandler env,
    runScenario_closes_once debugBody debugHandler env,
    runScenario_closes_once fixBody fixHandler env⟩

theorem runScenario_emits {P : Event → Prop} {b : Prog} {h : String → Prog}
    (hb : emitsWithin P b) (hh : ∀ m, emitsWithin P (h m))
    (hc : P Event.closed) (env : Env) :
    ∀ e ∈ (runScenario b h env).1, P e := by
  intro e he
  cases hb2 : (exec env b).2 with
  | none =>
      rw [runScenario_ok hb2] at he
      rcases List.mem_append.mp he with hm | hm
      · exact exec_emits b hb env e hm
      · rw [List.mem_singleton] at hm; subst hm; exact hc
  | some m =>
      cases hh2 : (exec env (h m)).2 with
      | none =>
          rw [runScenario_caught hb2 hh2] at he
          rcases List.mem_append.mp he with hm | hm
          · rcases List.mem_append.mp hm with hm2 | hm2
            · exact exec_emits b hb env e hm2
            · exact exec_emits (h m) (hh m) env e hm2
          · rw [List.mem_singleton] at hm; subst hm; exact hc
      | some m2 =>
          rw [runScenario_rethrow hb2 hh2] at he
          rcases List.mem_append.mp he with hm | hm
          · rcases List.mem_append.mp hm with hm2 | hm2
            · exact exec_emits b hb env e hm2
            · exact exec_emits (h m) (hh m) env e hm2
          · rw [List.mem_singleton] at hm; subst hm; exact hc

/-! ### Concrete environments used as witnesses -/

/-- An environment in which every browser call succeeds. -/
def envAllOk : Env :=
  { res := fun _ => none
    visible := fun _ => true
    title := "RockHound GO"
    content := "SYSTEM ACTIVE" }

/-- An environment in which exactly one browser call raises. -/
def envFailOnly (bad : Action) (msg : String) : Env :=
  { res := fun a => if a = bad then some msg else none
    visible := fun _ => true
    title := "RockHound GO"
    content := "SYSTEM ACTIVE" }

/-- An environment in which exactly two browser calls raise. -/
def envFailTwo (bad1 bad2 : Action) (msg1 msg2 : String) : Env :=
  { res := fun a =>
      if a = bad1 then some msg1 else if a = bad2 then some msg2 else none
    visible := fun _ => true
    title := "RockHound GO"
    content := "SYSTEM ACTIVE" }

/-! ### Fixed screenshot path sets (C7) -/

/-- Every screenshot path occurring in `verify_app.py`. -/
def appShots : List String :=
  ["verification/1_auth_screen.png", "verification/2_scanner_view.png",
    "verification/3_profile_view.png", "verification/4_collection_view.png",
    "verification/error.png"]

/-- Every screenshot path occurring in `verify_revolutionary.py`. -/
def revShots : List String :=
  ["verification/1_splash.png", "verification/2_auth.png",
    "verification/3_scanner_hud.png", "verification/4_admin_dashboard.png",
    "verification/5_weather_dashboard.png", "verification/error_rev.png"]

/-- Every screenshot path occurring in `verify_app_debug.py`. -/
def debugShots : List String := ["verification/debug_state.png"]

/-- Every screenshot path occurring in `verify_fix.py`. -/
def fixShots : List String :=
  ["verification/fixed_load.png", "verification/still_stuck.png"]

/-- The predicate "this event writes no file outside `S`". -/
def WritesIn (S : List String) (e : Event) : Prop :=
  ∀ q, e = Event.wrote q → q ∈ S

theorem emitsWithin_ite {P : Event → Prop} {c : Prop} [Decidable c]
    {a b : Prog} :
    emitsWithin P (if c then a else b) =
      if c then emitsWithin P a else emitsWithin P b :=
  apply_ite (emitsWithin P) c a b

theorem app_writesIn : emitsWithin (WritesIn appShots) appBody ∧
    ∀ m, emitsWithin (WritesIn appShots) (appHandler m) := by
  constructor
  · simp [emitsWithin, appBody, appAuthBody, appAfterAuth, effectOf,
      WritesIn, appShots]
  · intro m
    simp [emitsWithin, appHandler, effectOf, WritesIn, appShots]

theorem rev_writesIn : emitsWithin (WritesIn revShots) revBody ∧
    ∀ m, emitsWithin (WritesIn revShots) (revHandler m) := by
  constructor
  · simp [emitsWithin, revBody, revSplashBody, revAuthBody, revAfterAuth,
      effectOf, WritesIn, revShots, emitsWithin_ite]
  · intro m
    simp [emitsWithin, revHandler, effectOf, WritesIn, revShots]

theorem debug_writesIn : emitsWithin (WritesIn debugShots) debugBody ∧
    ∀ m, emitsWithin (WritesIn debugShots) (debugHandler m) := by
  constructor
  · simp [emitsWithin, debugBody, effectOf, WritesIn, debugShots,
      emitsWithin_ite]
  · intro m
    simp [emitsWithin, debugHandler, WritesIn]

theorem fix_writesIn : emitsWithin (WritesIn fixShots) fixBody ∧
    ∀ m, emitsWithin (WritesIn fixShots) (fixHandler m) := by
  constructor
  · simp [emitsWithin, fixBody, fixFirstBody, fixSecondBody, fixStuck,
      effectOf, WritesIn, fixShots]
  · intro m
    simp [emitsWithin, fixHandler, WritesIn]

/-- C7: the set of screenshot file paths each scenario script can write is
the fixed finite set of hardcoded constants of that script, independent of
the run; rerunning therefore targets the very same paths (idempotent
overwrite) rather than accumulating new files. -/
theorem screenshot_paths_fixed (env : Env) :
    (∀ p, Event.wrote p ∈ (verify_app env).1 → p ∈ appShots) ∧
    (∀ p, Event.wrote p ∈ (verify_app_revolutionary env).1 → p ∈ revShots) ∧
    (∀ p, Event.wrote p ∈ (verify_app_debug env).1 → p ∈ debugShots) ∧
    (∀ p, Event.wrote p ∈ (verify_fix env).1 → p ∈ fixShots) := by
  refine ⟨?_, ?_, ?_, ?_⟩
  · intro p hp
    exact runScenario_emits app_writesIn.1 app_writesIn.2 (by simp [WritesIn])
      env _ hp p rfl
  · intro p hp
    exact runScenario_emits rev_writesIn.1 rev_writesIn.2 (by simp [WritesIn])
      env _ hp p rfl
  · intro p hp
    exact runScenario_emits debug_writesIn.1 debug_writesIn.2
      (by simp [WritesIn]) env _ hp p rfl
  · intro p hp
    exact runScenario_emits fix_writesIn.1 fix_writesIn.2 (by simp [WritesIn])
      env _ hp p rfl

/-- Witness for C7 at a concrete run in which every call succeeds. -/
theorem screenshot_paths_fixed_witness :
    "verification/2_scanner_view.png" ∈ appShots :=
  (screenshot_paths_fixed envAllOk).1 "verification/2_scanner_view.png"
    (by decide)

/-! ### More helper lemmas -/

theorem mem_writesOf {p : String} {t : List Event} :
    p ∈ writesOf t ↔ Event.wrote p ∈ t := by
  simp only [writesOf, List.mem_filterMap]
  constructor
  · rintro ⟨e, het, hm⟩
    cases e <;> simp [wroteOf] at hm
    subst hm; exact het
  · intro hmem
    exact ⟨Event.wrote p, hmem, rfl⟩

/-- When the handler never raises, the result of a `try/except` is the
result of the code after it. -/
theorem tryCatch_snd {env : Env} {b : Prog} {h : String → Prog} {r : Prog}
    (hh : ∀ m, (exec env (h m)).2 = none) :
    (exec env (.tryCatch b h r)).2 = (exec env r).2 := by
  cases hb : (exec env b).2 with
  | none => rw [exec_tryCatch_ok hb]
  | some m => rw [exec_tryCatch_caught hb (hh m)]

theorem mem_tryCatch_of_mem_rest {env : Env} {b : Prog} {h : String → Prog}
    {r : Prog} {e : Event} (hh : ∀ m, (exec env (h m)).2 = none)
    (he : e ∈ (exec env r).1) : e ∈ (exec env (.tryCatch b h r)).1 := by
  cases hb : (exec env b).2 with
  | none => rw [exec_tryCatch_ok hb]; simp [he]
  | some m => rw [exec_tryCatch_caught hb (hh m)]; simp [he]

theorem mem_runScenario_of_mem_body {env : Env} {b : Prog}
    {h : String → Prog} {e : Event} (he : e ∈ (exec env b).1) :
    e ∈ (runScenario b h env).1 := by
  cases hb : (exec env b).2 with
  | none => rw [runScenario_ok hb]; simp [he]
  | some m =>
      cases hh : (exec env (h m)).2 with
      | none => rw [runScenario_caught hb hh]; simp [he]
      | some m2 => rw [runScenario_rethrow hb hh]; simp [he]

theorem not_mem_runScenario {env : Env} {b : Prog} {h : String → Prog}
    {e : Event} (hb : e ∉ (exec env b).1)
    (hh : ∀ m, e ∉ (exec env (h m)).1) (hc : e ≠ Event.closed) :
    e ∉ (runScenario b h env).1 := by
  cases hb2 : (exec env b).2 with
  | none => rw [runScenario_ok hb2]; simp [hb, hc]
  | some m =>
      cases hh2 : (exec env (h m)).2 with
      | none => rw [runScenario_caught hb2 hh2]; simp [hb, hh m, hc]
      | some m2 => rw [runScenario_rethrow hb2 hh2]; simp [hb, hh m, hc]

/-- The attempt of a step's action is always in the step's trace, whether
the call succeeds or raises. -/
theorem tried_mem_step {env : Env} {a : Action} {r : Prog} :
    Event.tried a ∈ (exec env (.step a r)).1 := by
  cases hres : env.res a with
  | some m => rw [exec_step_some hres]; simp
  | none => rw [exec_step_none hres]; simp

/-! ### C5: no exception escapes the entry point (corrected) -/

theorem runScenario_snd_none {env : Env} {b : Prog} {h : String → Prog}
    (hh : ∀ m, (exec env (h m)).2 = none) :
    (runScenario b h env).2 = none := by
  cases hb : (exec env b).2 with
  | none => rw [runScenario_ok hb]
  | some m => rw [runScenario_caught hb (hh m)]

/-- The environment of the C5 counterexample: the mandatory scanner wait of
`verify_app.py` times out, and the failure screenshot in the top-level
handler itself raises (the browser page being gone is a typical cause). -/
def envC5 : Env :=
  envFailTwo (.waitForSelector "text=SYSTEM ACTIVE" 10000)
    (.screenshot "verification/error.png")
    "Timeout 10000ms exceeded" "Target page, context or browser has been closed"

/-- C5 counterexample: in `verify_app.py`, when the mandatory wait times out
and the handler's own screenshot call then raises, the scenario function
does not return normally — the second exception escapes it. -/
theorem exception_can_escape_cx :
    (verify_app envC5).2 =
      some "Target page, context or browser has been closed" := by
  decide

/-- C5 as amended: `verify_fix.py` and `verify_app_debug.py` always return
normally (their top-level handlers only print); `verify_app.py` and
`verify_revolutionary.py` return normally provided the handler's failure
screenshot call does not itself raise. -/
theorem no_exception_escapes_amended :
    (∀ env : Env, (verify_fix env).2 = none) ∧
    (∀ env : Env, (verify_app_debug env).2 = none) ∧
    (∀ env : Env, env.res (.screenshot "verification/error.png") = none →
      (verify_app env).2 = none) ∧
    (∀ env : Env, env.res (.screenshot "verification/error_rev.png") = none →
      (verify_app_revolutionary env).2 = none) := by
  refine ⟨?_, ?_, ?_, ?_⟩
  · intro env
    exact runScenario_snd_none (fun m => by simp [fixHandler, exec])
  · intro env
    exact runScenario_snd_none (fun m => by simp [debugHandler, exec])
  · intro env hs
    exact runScenario_snd_none (fun m => by simp [appHandler, exec, hs])
  · intro env hs
    exact runScenario_snd_none (fun m => by simp [revHandler, exec, hs])

/-- Witness for the amended C5 at concrete environments. -/
theorem no_exception_escapes_witness :
    (verify_fix envC5).2 = none ∧ (verify_app envAllOk).2 = none :=
  ⟨no_exception_escapes_amended.1 envC5,
    no_exception_escapes_amended.2.2.1 envAllOk rfl⟩

/-! ### C8: a failing handler screenshot escapes, after the close -/

/-- C8: in `verify_app.py` and `verify_revolutionary.py`, if the scenario
body raises and the failure-screenshot call inside the top-level handler
itself raises, the second exception escapes the scenario function uncaught —
yet the `finally` block still closes the browser, as the last event before
propagation. -/
theorem handler_screenshot_failure_escapes :
    (∀ (env : Env) (m m2 : String), (exec env appBody).2 = some m →
      env.res (.screenshot "verification/error.png") = some m2 →
      verify_app env =
        ((exec env appBody).1 ++
          [Event.print ("Error: " ++ m),
            Event.tried (.screenshot "verification/error.png")] ++
          [Event.closed], some m2)) ∧
    (∀ (env : Env) (m m2 : String), (exec env revBody).2 = some m →
      env.res (.screenshot "verification/error_rev.png") = some m2 →
      verify_app_revolutionary env =
        ((exec env revBody).1 ++
          [Event.print ("Error: " ++ m),
            Event.tried (.screenshot "verification/error_rev.png")] ++
          [Event.closed], some m2)) := by
  constructor
  · intro env m m2 hb hs
    have hh1 : (exec env (appHandler m)).1 =
        [Event.print ("Error: " ++ m),
          Event.tried (.screenshot "verification/error.png")] := by
      simp [appHandler, exec, hs]
    have hh2 : (exec env (appHandler m)).2 = some m2 := by
      simp [appHandler, exec, hs]
    rw [verify_app, runScenario_rethrow hb hh2, hh1]
  · intro env m m2 hb hs
    have hh1 : (exec env (revHandler m)).1 =
        [Event.print ("Error: " ++ m),
          Event.tried (.screenshot "verification/error_rev.png")] := by
      simp [revHandler, exec, hs]
    have hh2 : (exec env (revHandler m)).2 = some m2 := by
      simp [revHandler, exec, hs]
    rw [verify_app_revolutionary, runScenario_rethrow hb hh2, hh1]

/-- Witness environment for C8: navigation fails and every screenshot call
fails. -/
def envC8 : Env :=
  { res := fun a =>
      match a with
      | .goto _ _ => some "net::ERR_CONNECTION_REFUSED"
      | .screenshot _ => some "Target closed"
      | _ => none
    visible := fun _ => true
    title := "RockHound GO"
    content := "SYSTEM ACTIVE" }

/-- Witness for C8 at `envC8`, for both scripts. -/
theorem handler_screenshot_failure_escapes_witness :
    verify_app envC8 =
      ([Event.tried (.goto "http://localhost:4173" none),
        Event.print ("Error: " ++ "net::ERR_CONNECTION_REFUSED"),
        Event.tried (.screenshot "verification/error.png"),
        Event.closed], some "Target closed") ∧
    verify_app_revolutionary envC8 =
      ([Event.print "Navigating to app...",
        Event.tried (.goto "http://localhost:4173" (some 60000)),
        Event.print ("Error: " ++ "net::ERR_CONNECTION_REFUSED"),
        Event.tried (.screenshot "verification/error_rev.png"),
        Event.closed], some "Target closed") := by
  constructor
  · rw [handler_screenshot_failure_escapes.1 envC8
      "net::ERR_CONNECTION_REFUSED" "Target closed" (by decide) rfl]
    decide
  · rw [handler_screenshot_failure_escapes.2 envC8
      "net::ERR_CONNECTION_REFUSED" "Target closed" (by decide) rfl]
    decide

/-! ### C4: what reaches the top-level handler (corrected) -/

theorem mem_runScenario_of_mem_handler {env : Env} {b : Prog}
    {h : String → Prog} {m : String} {e : Event}
    (hb : (exec env b).2 = some m) (he : e ∈ (exec env (h m)).1) :
    e ∈ (runScenario b h env).1 := by
  cases hh : (exec env (h m)).2 with
  | none => rw [runScenario_caught hb hh]; simp [he]
  | some m2 => rw [runScenario_rethrow hb hh]; simp [he]

/-- The environment of the C4 counterexample: only `page.goto` raises (a
navigation error, not a marker-wait timeout). -/
def envC4 : Env :=
  envFailOnly (.goto "http://localhost:4173" none) "net::ERR_CONNECTION_REFUSED"

/-- C4 counterexample: in `verify_app.py` a navigation error from
`page.goto` reaches the top-level handler (its error text is printed by the
handler), although no marker wait was even attempted — so "expected marker
not found within timeout" is not the only failure kind that reaches it. -/
theorem nonwait_failure_reaches_handler_cx :
    envC4.res (.goto "http://localhost:4173" none) =
      some "net::ERR_CONNECTION_REFUSED" ∧
    Event.print ("Error: " ++ "net::ERR_CONNECTION_REFUSED") ∈
      (verify_app envC4).1 ∧
    Event.tried (.waitForSelector "text=Access Protocol" 5000) ∉
      (verify_app envC4).1 ∧
    Event.tried (.waitForSelector "text=SYSTEM ACTIVE" 10000) ∉
      (verify_app envC4).1 := by
  decide

/-- C4 as amended: besides mandatory marker-wait timeouts, any other
exception raised inside the top-level `try` also reaches the top-level
handler — e.g. a navigation error from `page.goto` (in `verify_app.py` and
`verify_revolutionary.py`) or a failure of the unguarded
`page.click('header div.cursor-pointer')` interaction in `verify_app.py`. -/
theorem nonwait_failures_reach_handler :
    (∀ (env : Env) (m : String),
      env.res (.goto "http://localhost:4173" none) = some m →
      Event.print ("Error: " ++ m) ∈ (verify_app env).1) ∧
    (∀ (env : Env) (m : String),
      env.res (.goto "http://localhost:4173" none) = none →
      env.res (.waitForSelector "text=SYSTEM ACTIVE" 10000) = none →
      env.res (.screenshot "verification/2_scanner_view.png") = none →
      env.res (.click "header div.cursor-pointer") = some m →
      Event.print ("Error: " ++ m) ∈ (verify_app env).1) ∧
    (∀ (env : Env) (m : String),
      env.res (.goto "http://localhost:4173" (some 60000)) = some m →
      Event.print ("Error: " ++ m) ∈ (verify_app_revolutionary env).1) := by
  refine ⟨?_, ?_, ?_⟩
  · intro env m hg
    have hb : (exec env appBody).2 = some m := by
      unfold appBody; rw [exec_step_some hg]
    exact mem_runScenario_of_mem_handler hb (by simp [appHandler, exec])
  · intro env m hg hSA hshot hclick
    have hT : ∀ m', (exec env
        ((fun _ : String =>
          Prog.print "Auth screen not found or already logged in" Prog.done)
          m')).2 = none := fun m' => by simp [exec]
    have hb : (exec env appBody).2 = some m := by
      unfold appBody
      rw [exec_step_none hg]
      show (exec env (.tryCatch appAuthBody _ appAfterAuth)).2 = some m
      rw [tryCatch_snd hT]
      simp [appAfterAuth, exec, hSA, hshot, hclick, effectOf]
    exact mem_runScenario_of_mem_handler hb (by simp [appHandler, exec])
  · intro env m hg
    have hb : (exec env revBody).2 = some m := by
      simp [revBody, exec, hg]
    exact mem_runScenario_of_mem_handler hb (by simp [revHandler, exec])

/-- Witness for the amended C4 at concrete environments: a navigation
failure and an unguarded-click failure each reach the handler. -/
theorem nonwait_failures_reach_handler_witness :
    Event.print ("Error: " ++ "net::ERR_CONNECTION_REFUSED") ∈
      (verify_app envC4).1 ∧
    Event.print ("Error: " ++ "element is not attached to the DOM") ∈
      (verify_app (envFailOnly (.click "header div.cursor-pointer")
        "element is not attached to the DOM")).1 ∧
    Event.print ("Error: " ++ "net::ERR_CONNECTION_REFUSED") ∈
      (verify_app_revolutionary envC8).1 :=
  ⟨nonwait_failures_reach_handler.1 envC4 "net::ERR_CONNECTION_REFUSED"
      (by decide),
    nonwait_failures_reach_handler.2.1
      (envFailOnly (.click "header div.cursor-pointer")
        "element is not attached to the DOM")
      "element is not attached to the DOM"
      (by decide) (by decide) (by decide) (by decide),
    nonwait_failures_reach_handler.2.2 envC8 "net::ERR_CONNECTION_REFUSED"
      rfl⟩

/-! ### C2: mandatory-timeout behaviour (corrected) -/

/-- Every event the optional auth block of `verify_app.py` (body and
swallowing handler) can emit. -/
def appAuthEvents : List Event :=
  [Event.tried (.waitForSelector "text=Access Protocol" 5000),
    Event.print "Auth screen detected",
    Event.tried (.screenshot "verification/1_auth_screen.png"),
    Event.wrote "verification/1_auth_screen.png",
    Event.tried (.fill "input[type=\"email\"]" "admin@rockhound.com"),
    Event.tried (.fill "input[type=\"password\"]" "admin"),
    Event.tried (.click "button:has-text(\"Initialize Session\")"),
    Event.print "Auth screen not found or already logged in"]

theorem app_auth_events (env : Env) :
    ∀ e ∈ (exec env appAuthBody).1, e ∈ appAuthEvents :=
  exec_emits appAuthBody
    (by simp [emitsWithin, appAuthBody, effectOf, appAuthEvents]) env

theorem not_mem_of_all {e : Event} {t L : List Event}
    (ht : ∀ x ∈ t, x ∈ L) (he : e ∉ L) : e ∉ t :=
  fun h => he (ht e h)

theorem not_mem_cons_append {e x : Event} {t u : List Event} (h1 : e ≠ x)
    (h2 : e ∉ t) (h3 : e ∉ u) : e ∉ x :: (t ++ u) := by
  intro h
  rcases List.mem_cons.mp h with rfl | h
  · exact h1 rfl
  · rcases List.mem_append.mp h with h | h
    · exact h2 h
    · exact h3 h

/-- On a scanner-wait timeout in `verify_app.py`, the body trace is the
`goto` attempt, some events of the optional auth block, and the failed
mandatory wait — nothing else. -/
theorem app_body_on_SA_timeout {env : Env} {m : String}
    (hg : env.res (.goto "http://localhost:4173" none) = none)
    (hw : env.res (.waitForSelector "text=SYSTEM ACTIVE" 10000) = some m) :
    ∃ t, exec env appBody =
        (Event.tried (.goto "http://localhost:4173" none) ::
          (t ++ [Event.tried (.waitForSelector "text=SYSTEM ACTIVE" 10000)]),
          some m) ∧
      ∀ e ∈ t, e ∈ appAuthEvents := by
  have hafter : exec env appAfterAuth =
      ([Event.tried (.waitForSelector "text=SYSTEM ACTIVE" 10000)],
        some m) := by
    unfold appAfterAuth; exact exec_step_some hw
  cases hA : (exec env appAuthBody).2 with
  | none =>
      refine ⟨(exec env appAuthBody).1, ?_, app_auth_events env⟩
      unfold appBody
      rw [exec_step_none hg, exec_tryCatch_ok hA, hafter]
      simp [effectOf]
  | some mA =>
      have hH1 : (exec env (Prog.print
          "Auth screen not found or already logged in" Prog.done)).1 =
          [Event.print "Auth screen not found or already logged in"] := by
        simp [exec]
      have hH2 : (exec env (Prog.print
          "Auth screen not found or already logged in" Prog.done)).2 =
          none := by
        simp [exec]
      refine ⟨(exec env appAuthBody).1 ++
          [Event.print "Auth screen not found or already logged in"], ?_, ?_⟩
      · unfold appBody
        rw [exec_step_none hg, exec_tryCatch_caught hA hH2, hH1, hafter]
        simp [effectOf]
      · intro e he
        rcases List.mem_append.mp he with h | h
        · exact app_auth_events env e h
        · rw [List.mem_singleton] at h
          subst h
          simp [appAuthEvents]

/-- Every event the two optional blocks of `verify_revolutionary.py`
(bodies and swallowing handlers) can emit. -/
def revOptEvents : List Event :=
  [Event.tried (.waitForSelector "text=INITIALIZING KERNEL..." 10000),
    Event.print "Splash screen detected",
    Event.tried (.screenshot "verification/1_splash.png"),
    Event.wrote "verification/1_splash.png",
    Event.print "Splash screen skipped or missed",
    Event.tried (.waitForSelector "text=ROCKHOUND" 10000),
    Event.print "Auth screen detected",
    Event.tried (.screenshot "verification/2_auth.png"),
    Event.wrote "verification/2_auth.png",
    Event.tried (.fill "input[type=\"email\"]" "admin@rockhound.com"),
    Event.tried (.fill "input[type=\"password\"]" "admin"),
    Event.tried (.click "button:has-text(\"Authenticate\")"),
    Event.print "Auth screen not found or already logged in"]

theorem rev_splash_events (env : Env) :
    ∀ e ∈ (exec env revSplashBody).1, e ∈ revOptEvents :=
  exec_emits revSplashBody
    (by simp [emitsWithin, revSplashBody, effectOf, revOptEvents]) env

theorem rev_auth_events (env : Env) :
    ∀ e ∈ (exec env revAuthBody).1, e ∈ revOptEvents :=
  exec_emits revAuthBody
    (by simp [emitsWithin, revAuthBody, effectOf, revOptEvents,
      emitsWithin_ite]) env

/-- On a scanner-wait timeout in `verify_revolutionary.py`, the body trace
is the navigation prints, events of the two optional blocks, and the failed
mandatory wait — nothing else. -/
theorem rev_body_on_SA_timeout {env : Env} {m : String}
    (hg : env.res (.goto "http://localhost:4173" (some 60000)) = none)
    (hw : env.res (.waitForSelector "text=SYSTEM ACTIVE" 15000) = some m) :
    ∃ t, exec env revBody =
        (Event.print "Navigating to app..." ::
          Event.tried (.goto "http://localhost:4173" (some 60000)) ::
          (t ++ [Event.tried (.waitForSelector "text=SYSTEM ACTIVE" 15000)]),
          some m) ∧
      ∀ e ∈ t, e ∈ revOptEvents := by
  have hafter : exec env revAfterAuth =
      ([Event.tried (.waitForSelector "text=SYSTEM ACTIVE" 15000)],
        some m) := by
    unfold revAfterAuth; exact exec_step_some hw
  have hswallow1 : (exec env (Prog.print
      "Auth screen not found or already logged in" Prog.done)).1 =
      [Event.print "Auth screen not found or already logged in"] := by
    simp [exec]
  have hswallow2 : (exec env (Prog.print
      "Auth screen not found or already logged in" Prog.done)).2 = none := by
    simp [exec]
  have hskip1 : (exec env (Prog.print
      "Splash screen skipped or missed" Prog.done)).1 =
      [Event.print "Splash screen skipped or missed"] := by
    simp [exec]
  have hskip2 : (exec env (Prog.print
      "Splash screen skipped or missed" Prog.done)).2 = none := by
    simp [exec]
  have hT1 : ∃ t1, exec env (.tryCatch revAuthBody
        (fun _ => .print "Auth screen not found or already logged in" .done)
        revAfterAuth) =
      (t1 ++ [Event.tried (.waitForSelector "text=SYSTEM ACTIVE" 15000)],
        some m) ∧ ∀ e ∈ t1, e ∈ revOptEvents := by
    cases hA : (exec env revAuthBody).2 with
    | none =>
        refine ⟨(exec env revAuthBody).1, ?_, rev_auth_events env⟩
        rw [exec_tryCatch_ok hA, hafter]
    | some mA =>
        refine ⟨(exec env revAuthBody).1 ++
            [Event.print "Auth screen not found or already logged in"],
          ?_, ?_⟩
        · rw [exec_tryCatch_caught hA hswallow2, hswallow1, hafter]
        · intro e he
          rcases List.mem_append.mp he with h | h
          · exact rev_auth_events env e h
          · rw [List.mem_singleton] at h
            subst h
            simp [revOptEvents]
  obtain ⟨t1, ht1, ht1mem⟩ := hT1
  have ht1snd : (exec env (.tryCatch revAuthBody
      (fun _ => .print "Auth screen not found or already logged in" .done)
      revAfterAuth)).2 = some m := by rw [ht1]
  have hT2 : ∃ t2, exec env (.tryCatch revSplashBody
        (fun _ => .print "Splash screen skipped or missed" .done)
        (.tryCatch revAuthBody
          (fun _ => .print "Auth screen not found or already logged in" .done)
          revAfterAuth)) =
      (t2 ++ [Event.tried (.waitForSelector "text=SYSTEM ACTIVE" 15000)],
        some m) ∧ ∀ e ∈ t2, e ∈ revOptEvents := by
    cases hS : (exec env revSplashBody).2 with
    | none =>
        refine ⟨(exec env revSplashBody).1 ++ t1, ?_, ?_⟩
        · rw [exec_tryCatch_ok hS, ht1]
          simp
        · intro e he
          rcases List.mem_append.mp he with h | h
          · exact rev_splash_events env e h
          · exact ht1mem e h
    | some mS =>
        refine ⟨(exec env revSplashBody).1 ++
            [Event.print "Splash screen skipped or missed"] ++ t1, ?_, ?_⟩
        · rw [exec_tryCatch_caught hS hskip2, hskip1, ht1]
          simp
        · intro e he
          rcases List.mem_append.mp he with h | h
          · rcases List.mem_append.mp h with h2 | h2
            · exact rev_splash_events env e h2
            · rw [List.mem_singleton] at h2
              subst h2
              simp [revOptEvents]
          · exact ht1mem e h
  obtain ⟨t2, ht2, ht2mem⟩ := hT2
  refine ⟨t2, ?_, ht2mem⟩
  unfold revBody
  rw [exec_print, exec_step_none hg, ht2]
  simp [effectOf]

/-- The top-level handler of `verify_app.py` attempts no marker wait. -/
theorem appHandler_no_wait (env : Env) (m' s : String) (n : Nat) :
    Event.tried (.waitForSelector s n) ∉ (exec env (appHandler m')).1 :=
  fun hmem =>
    @exec_emits (fun e => e ≠ Event.tried (.waitForSelector s n))
      (appHandler m')
      (by simp [emitsWithin, appHandler, effectOf]) env _ hmem rfl

/-- The top-level handler of `verify_revolutionary.py` attempts no marker
wait. -/
theorem revHandler_no_wait (env : Env) (m' s : String) (n : Nat) :
    Event.tried (.waitForSelector s n) ∉ (exec env (revHandler m')).1 :=
  fun hmem =>
    @exec_emits (fun e => e ≠ Event.tried (.waitForSelector s n))
      (revHandler m')
      (by simp [emitsWithin, revHandler, effectOf]) env _ hmem rfl

/-- Full run of `verify_app_debug.py` when the mandatory `body` wait times
out: the error is printed, the browser is closed, and no screenshot file is
written. -/
theorem debug_on_timeout {env : Env} {m : String}
    (hg : env.res (.goto "http://localhost:4173" (some 60000)) = none)
    (hw : env.res (.waitForSelector "body" 10000) = some m) :
    verify_app_debug env =
      ([Event.print "Navigating to app...",
        Event.tried (.goto "http://localhost:4173" (some 60000)),
        Event.print "Waiting for body...",
        Event.tried (.waitForSelector "body" 10000),
        Event.print ("Error: " ++ m), Event.closed], none) := by
  have hb : exec env debugBody =
      ([Event.print "Navigating to app...",
        Event.tried (.goto "http://localhost:4173" (some 60000)),
        Event.print "Waiting for body...",
        Event.tried (.waitForSelector "body" 10000)], some m) := by
    unfold debugBody
    rw [exec_print, exec_step_none hg]
    rw [exec_print, exec_step_some hw]
    simp [effectOf]
  have hb1 := congrArg Prod.fst hb
  have hb2 := congrArg Prod.snd hb
  have hH1 : (exec env (debugHandler m)).1 = [Event.print ("Error: " ++ m)] := by
    simp [debugHandler, exec]
  have hH2 : (exec env (debugHandler m)).2 = none := by
    simp [debugHandler, exec]
  rw [verify_app_debug, runScenario_caught hb2 hH2, hb1, hH1]
  rfl

/-- C2 counterexample environment: in `verify_app_debug.py` the mandatory
`body` wait times out. -/
def envC2 : Env :=
  envFailOnly (.waitForSelector "body" 10000) "Timeout 10000ms exceeded"

/-- C2 counterexample: in `verify_app_debug.py`, when the mandatory marker
wait times out the scenario aborts and logs the error, but no failure
screenshot at all is written (the claim demands exactly one). -/
theorem mandatory_timeout_no_screenshot_cx :
    envC2.res (.waitForSelector "body" 10000) =
      some "Timeout 10000ms exceeded" ∧
    Event.print ("Error: " ++ "Timeout 10000ms exceeded") ∈
      (verify_app_debug envC2).1 ∧
    writesOf (verify_app_debug envC2).1 = [] := by
  decide

/-- C2 as amended: if a mandatory marker wait times out, the scenario
aborts (no later step of that scenario runs), the error text is logged, and
the browser is released last.  In `verify_app.py` and
`verify_revolutionary.py` — whose top-level handlers take a screenshot —
exactly one failure screenshot file is written, provided the handler's
screenshot call itself succeeds; `verify_app_debug.py` (and `verify_fix.py`,
which has no mandatory marker wait) writes no failure screenshot. -/
theorem mandatory_timeout_aborts :
    (∀ (env : Env) (m : String),
      env.res (.goto "http://localhost:4173" none) = none →
      env.res (.waitForSelector "text=SYSTEM ACTIVE" 10000) = some m →
      env.res (.screenshot "verification/error.png") = none →
      Event.print ("Error: " ++ m) ∈ (verify_app env).1 ∧
      (writesOf (verify_app env).1).count "verification/error.png" = 1 ∧
      Event.tried (.waitForSelector "text=Operative Profile" 5000) ∉
        (verify_app env).1 ∧
      Event.tried (.waitForSelector "text=Vault" 5000) ∉ (verify_app env).1 ∧
      ((verify_app env).1).getLast? = some Event.closed) ∧
    (∀ (env : Env) (m : String),
      env.res (.goto "http://localhost:4173" (some 60000)) = none →
      env.res (.waitForSelector "text=SYSTEM ACTIVE" 15000) = some m →
      env.res (.screenshot "verification/error_rev.png") = none →
      Event.print ("Error: " ++ m) ∈ (verify_app_revolutionary env).1 ∧
      (writesOf (verify_app_revolutionary env).1).count
        "verification/error_rev.png" = 1 ∧
      Event.tried (.waitForSelector "text=Mainframe Control" 5000) ∉
        (verify_app_revolutionary env).1 ∧
      Event.tried (.waitForSelector "text=Planetary Conditions" 5000) ∉
        (verify_app_revolutionary env).1 ∧
      ((verify_app_revolutionary env).1).getLast? = some Event.closed) ∧
    (∀ (env : Env) (m : String),
      env.res (.goto "http://localhost:4173" (some 60000)) = none →
      env.res (.waitForSelector "body" 10000) = some m →
      verify_app_debug env =
        ([Event.print "Navigating to app...",
          Event.tried (.goto "http://localhost:4173" (some 60000)),
          Event.print "Waiting for body...",
          Event.tried (.waitForSelector "body" 10000),
          Event.print ("Error: " ++ m), Event.closed], none)) := by
  refine ⟨?_, ?_, fun env m hg hw => debug_on_timeout hg hw⟩
  · intro env m hg hw hs
    obtain ⟨t, hbody, ht⟩ := app_body_on_SA_timeout hg hw
    have hb1 := congrArg Prod.fst hbody
    have hb2 := congrArg Prod.snd hbody
    have hH1 : (exec env (appHandler m)).1 =
        [Event.print ("Error: " ++ m),
          Event.tried (.screenshot "verification/error.png"),
          Event.wrote "verification/error.png"] := by
      simp [appHandler, exec, hs, effectOf]
    have hH2 : (exec env (appHandler m)).2 = none := by
      simp [appHandler, exec, hs]
    have htr : (verify_app env).1 =
        (Event.tried (.goto "http://localhost:4173" none) ::
          (t ++ [Event.tried (.waitForSelector "text=SYSTEM ACTIVE" 10000)]))
          ++ [Event.print ("Error: " ++ m),
            Event.tried (.screenshot "verification/error.png"),
            Event.wrote "verification/error.png"] ++ [Event.closed] := by
      rw [verify_app, runScenario_caught hb2 hH2, hb1, hH1]
    have hnm : "verification/error.png" ∉ writesOf t := by
      intro hmem
      exact absurd (ht _ (mem_writesOf.mp hmem)) (by decide)
    refine ⟨?_, ?_, ?_, ?_,
      (runScenario_closes_once appBody appHandler env).2⟩
    · rw [htr]; simp
    · rw [htr]
      have hws : writesOf ((Event.tried (.goto "http://localhost:4173" none) ::
          (t ++ [Event.tried (.waitForSelector "text=SYSTEM ACTIVE" 10000)]))
          ++ [Event.print ("Error: " ++ m),
            Event.tried (.screenshot "verification/error.png"),
            Event.wrote "verification/error.png"] ++ [Event.closed]) =
          writesOf t ++ ["verification/error.png"] := by
        simp [writesOf, wroteOf, List.filterMap_append]
      rw [hws, List.count_append, List.count_eq_zero.mpr hnm]
      simp
    · refine not_mem_runScenario ?_ (fun m' =>
        appHandler_no_wait env m' "text=Operative Profile" 5000) (by decide)
      rw [hb1]
      exact not_mem_cons_append (by decide)
        (not_mem_of_all ht (by decide)) (by decide)
    · refine not_mem_runScenario ?_ (fun m' =>
        appHandler_no_wait env m' "text=Vault" 5000) (by decide)
      rw [hb1]
      exact not_mem_cons_append (by decide)
        (not_mem_of_all ht (by decide)) (by decide)
  · intro env m hg hw hs
    obtain ⟨t, hbody, ht⟩ := rev_body_on_SA_timeout hg hw
    have hb1 := congrArg Prod.fst hbody
    have hb2 := congrArg Prod.snd hbody
    have hH1 : (exec env (revHandler m)).1 =
        [Event.print ("Error: " ++ m),
          Event.tried (.screenshot "verification/error_rev.png"),
          Event.wrote "verification/error_rev.png"] := by
      simp [revHandler, exec, hs, effectOf]
    have hH2 : (exec env (revHandler m)).2 = none := by
      simp [revHandler, exec, hs]
    have htr : (verify_app_revolutionary env).1 =
        (Event.print "Navigating to app..." ::
          Event.tried (.goto "http://localhost:4173" (some 60000)) ::
          (t ++ [Event.tried (.waitForSelector "text=SYSTEM ACTIVE" 15000)]))
          ++ [Event.print ("Error: " ++ m),
            Event.tried (.screenshot "verification/error_rev.png"),
            Event.wrote "verification/error_rev.png"] ++ [Event.closed] := by
      rw [verify_app_revolutionary, runScenario_caught hb2 hH2, hb1, hH1]
    have hnm : "verification/error_rev.png" ∉ writesOf t := by
      intro hmem
      exact absurd (ht _ (mem_writesOf.mp hmem)) (by decide)
    refine ⟨?_, ?_, ?_, ?_,
      (runScenario_closes_once revBody revHandler env).2⟩
    · rw [htr]; simp
    · rw [htr]
      have hws : writesOf ((Event.print "Navigating to app..." ::
          Event.tried (.goto "http://localhost:4173" (some 60000)) ::
          (t ++ [Event.tried (.waitForSelector "text=SYSTEM ACTIVE" 15000)]))
          ++ [Event.print ("Error: " ++ m),
            Event.tried (.screenshot "verification/error_rev.png"),
            Event.wrote "verification/error_rev.png"] ++ [Event.closed]) =
          writesOf t ++ ["verification/error_rev.png"] := by
        simp [writesOf, wroteOf, List.filterMap_append]
      rw [hws, List.count_append, List.count_eq_zero.mpr hnm]
      simp
    · refine not_mem_runScenario ?_ (fun m' =>
        revHandler_no_wait env m' "text=Mainframe Control" 5000) (by decide)
      rw [hb1]
      intro h
      rcases List.mem_cons.mp h with h | h
      · exact absurd h (by decide)
      · exact not_mem_cons_append (by decide)
          (not_mem_of_all ht (by decide)) (by decide) h
    · refine not_mem_runScenario ?_ (fun m' =>
        revHandler_no_wait env m' "text=Planetary Conditions" 5000) (by decide)
      rw [hb1]
      intro h
      rcases List.mem_cons.mp h with h | h
      · exact absurd h (by decide)
      · exact not_mem_cons_append (by decide)
          (not_mem_of_all ht (by decide)) (by decide) h

/-- Witness for the amended C2 at concrete timeout environments. -/
theorem mandatory_timeout_aborts_witness :
    (writesOf (verify_app (envFailOnly
      (.waitForSelector "text=SYSTEM ACTIVE" 10000)
      "Timeout 10000ms exceeded")).1).count "verification/error.png" = 1 ∧
    (writesOf (verify_app_revolutionary (envFailOnly
      (.waitForSelector "text=SYSTEM ACTIVE" 15000)
      "Timeout 15000ms exceeded")).1).count "verification/error_rev.png" = 1 ∧
    writesOf (verify_app_debug envC2).1 = [] := by
  refine ⟨(mandatory_timeout_aborts.1 (envFailOnly
      (.waitForSelector "text=SYSTEM ACTIVE" 10000) "Timeout 10000ms exceeded")
      "Timeout 10000ms exceeded" (by decide) (by decide) (by decide)).2.1,
    (mandatory_timeout_aborts.2.1 (envFailOnly
      (.waitForSelector "text=SYSTEM ACTIVE" 15000) "Timeout 15000ms exceeded")
      "Timeout 15000ms exceeded" (by decide) (by decide) (by decide)).2.1,
    ?_⟩
  rw [mandatory_timeout_aborts.2.2 envC2 "Timeout 10000ms exceeded"
    (by decide) (by decide)]
  decide

/-! ### C9: the bare `except` swallows every exception of the auth block -/

theorem exec_askVisible {env : Env} {sel : String} {k : Bool → Prog} :
    exec env (.askVisible sel k) = exec env (k (env.visible sel)) := rfl

/-- C9: the bare `except:` of the optional auth block swallows every
exception raised inside the block, not only the marker-wait timeout.  In
`verify_app.py`: (a) if the auth marker is found and the screenshot
succeeds but `page.fill` of the email field fails, or (b) the fills succeed
but the login `page.click` fails, then "Auth screen detected" has been
printed, the failure is nevertheless logged as "Auth screen not found or
already logged in", execution proceeds to the mandatory scanner wait, and —
in case (a) — the remaining fill and click of the block never run.
(c) Likewise in `verify_revolutionary.py` when the login click fails. -/
theorem bare_except_swallows_all :
    (∀ (env : Env) (m : String),
      env.res (.goto "http://localhost:4173" none) = none →
      env.res (.waitForSelector "text=Access Protocol" 5000) = none →
      env.res (.screenshot "verification/1_auth_screen.png") = none →
      env.res (.fill "input[type=\"email\"]" "admin@rockhound.com") = some m →
      Event.print "Auth screen detected" ∈ (verify_app env).1 ∧
      Event.print "Auth screen not found or already logged in" ∈
        (verify_app env).1 ∧
      Event.tried (.waitForSelector "text=SYSTEM ACTIVE" 10000) ∈
        (verify_app env).1 ∧
      Event.tried (.fill "input[type=\"password\"]" "admin") ∉
        (verify_app env).1 ∧
      Event.tried (.click "button:has-text(\"Initialize Session\")") ∉
        (verify_app env).1) ∧
    (∀ (env : Env) (m : String),
      env.res (.goto "http://localhost:4173" none) = none →
      env.res (.waitForSelector "text=Access Protocol" 5000) = none →
      env.res (.screenshot "verification/1_auth_screen.png") = none →
      env.res (.fill "input[type=\"email\"]" "admin@rockhound.com") = none →
      env.res (.fill "input[type=\"password\"]" "admin") = none →
      env.res (.click "button:has-text(\"Initialize Session\")") = some m →
      Event.print "Auth screen detected" ∈ (verify_app env).1 ∧
      Event.print "Auth screen not found or already logged in" ∈
        (verify_app env).1 ∧
      Event.tried (.waitForSelector "text=SYSTEM ACTIVE" 10000) ∈
        (verify_app env).1) ∧
    (∀ (env : Env) (m : String),
      env.res (.goto "http://localhost:4173" (some 60000)) = none →
      env.res (.waitForSelector "text=ROCKHOUND" 10000) = none →
      env.visible "button:has-text(\"Initialize Protocol\")" = true →
      env.res (.screenshot "verification/2_auth.png") = none →
      env.res (.fill "input[type=\"email\"]" "admin@rockhound.com") = none →
      env.res (.fill "input[type=\"password\"]" "admin") = none →
      env.res (.click "button:has-text(\"Authenticate\")") = some m →
      Event.print "Auth screen detected" ∈ (verify_app_revolutionary env).1 ∧
      Event.print "Auth screen not found or already logged in" ∈
        (verify_app_revolutionary env).1 ∧
      Event.tried (.waitForSelector "text=SYSTEM ACTIVE" 15000) ∈
        (verify_app_revolutionary env).1) := by
  refine ⟨?_, ?_, ?_⟩
  · intro env m hg hAP hshot hfe
    have hauth : exec env appAuthBody =
        ([Event.tried (.waitForSelector "text=Access Protocol" 5000),
          Event.print "Auth screen detected",
          Event.tried (.screenshot "verification/1_auth_screen.png"),
          Event.wrote "verification/1_auth_screen.png",
          Event.tried (.fill "input[type=\"email\"]" "admin@rockhound.com")],
          some m) := by
      unfold appAuthBody
      rw [exec_step_none hAP, exec_print, exec_step_none hshot,
        exec_step_some hfe]
      simp [effectOf]
    have hauth1 := congrArg Prod.fst hauth
    have hauth2 := congrArg Prod.snd hauth
    have hsw1 : (exec env (Prog.print
        "Auth screen not found or already logged in" Prog.done)).1 =
        [Event.print "Auth screen not found or already logged in"] := by
      simp [exec]
    have hsw2 : (exec env (Prog.print
        "Auth screen not found or already logged in" Prog.done)).2 =
        none := by
      simp [exec]
    have hbody : (exec env appBody).1 =
        Event.tried (.goto "http://localhost:4173" none) ::
          (([Event.tried (.waitForSelector "text=Access Protocol" 5000),
            Event.print "Auth screen detected",
            Event.tried (.screenshot "verification/1_auth_screen.png"),
            Event.wrote "verification/1_auth_screen.png",
            Event.tried (.fill "input[type=\"email\"]" "admin@rockhound.com")]
            ++ [Event.print "Auth screen not found or already logged in"])
            ++ (exec env appAfterAuth).1) := by
      unfold appBody
      rw [exec_step_none hg, exec_tryCatch_caught hauth2 hsw2, hsw1, hauth1]
      simp [effectOf]
    have hSA : Event.tried (.waitForSelector "text=SYSTEM ACTIVE" 10000) ∈
        (exec env appAfterAuth).1 := by
      unfold appAfterAuth; exact tried_mem_step
    refine ⟨?_, ?_, ?_, ?_, ?_⟩
    · refine mem_runScenario_of_mem_body ?_
      rw [hbody]; simp
    · refine mem_runScenario_of_mem_body ?_
      rw [hbody]; simp
    · refine mem_runScenario_of_mem_body ?_
      rw [hbody]
      simp only [List.mem_cons, List.mem_append]
      exact Or.inr (Or.inr hSA)
    · refine not_mem_runScenario ?_ (fun m' hmem =>
        @exec_emits (fun e => e ≠ Event.tried
            (.fill "input[type=\"password\"]" "admin")) (appHandler m')
          (by simp [emitsWithin, appHandler, effectOf]) env _ hmem rfl)
        (by decide)
      rw [hbody]
      refine not_mem_cons_append (by decide) (by decide) ?_
      exact fun hmem =>
        @exec_emits (fun e => e ≠ Event.tried
            (.fill "input[type=\"password\"]" "admin")) appAfterAuth
          (by simp [emitsWithin, appAfterAuth, effectOf]) env _ hmem rfl
    · refine not_mem_runScenario ?_ (fun m' hmem =>
        @exec_emits (fun e => e ≠ Event.tried
            (.click "button:has-text(\"Initialize Session\")")) (appHandler m')
          (by simp [emitsWithin, appHandler, effectOf]) env _ hmem rfl)
        (by decide)
      rw [hbody]
      refine not_mem_cons_append (by decide) (by decide) ?_
      exact fun hmem =>
        @exec_emits (fun e => e ≠ Event.tried
            (.click "button:has-text(\"Initialize Session\")")) appAfterAuth
          (by simp [emitsWithin, appAfterAuth, effectOf]) env _ hmem rfl
  · intro env m hg hAP hshot hfe hfp hclick
    have hauth : exec env appAuthBody =
        ([Event.tried (.waitForSelector "text=Access Protocol" 5000),
          Event.print "Auth screen detected",
          Event.tried (.screenshot "verification/1_auth_screen.png"),
          Event.wrote "verification/1_auth_screen.png",
          Event.tried (.fill "input[type=\"email\"]" "admin@rockhound.com"),
          Event.tried (.fill "input[type=\"password\"]" "admin"),
          Event.tried (.click "button:has-text(\"Initialize Session\")")],
          some m) := by
      unfold appAuthBody
      rw [exec_step_none hAP, exec_print, exec_step_none hshot,
        exec_step_none hfe, exec_step_none hfp, exec_step_some hclick]
      simp [effectOf]
    have hauth1 := congrArg Prod.fst hauth
    have hauth2 := congrArg Prod.snd hauth
    have hsw1 : (exec env (Prog.print
        "Auth screen not found or already logged in" Prog.done)).1 =
        [Event.print "Auth screen not found or already logged in"] := by
      simp [exec]
    have hsw2 : (exec env (Prog.print
        "Auth screen not found or already logged in" Prog.done)).2 =
        none := by
      simp [exec]
    have hbody : (exec env appBody).1 =
        Event.tried (.goto "http://localhost:4173" none) ::
          (((exec env appAuthBody).1
            ++ [Event.print "Auth screen not found or already logged in"])
            ++ (exec env appAfterAuth).1) := by
      unfold appBody
      rw [exec_step_none hg, exec_tryCatch_caught hauth2 hsw2, hsw1]
      simp [effectOf]
    have hSA : Event.tried (.waitForSelector "text=SYSTEM ACTIVE" 10000) ∈
        (exec env appAfterAuth).1 := by
      unfold appAfterAuth; exact tried_mem_step
    refine ⟨?_, ?_, ?_⟩
    · refine mem_runScenario_of_mem_body ?_
      rw [hbody, hauth1]; simp
    · refine mem_runScenario_of_mem_body ?_
      rw [hbody]; simp
    · refine mem_runScenario_of_mem_body ?_
      rw [hbody]
      simp only [List.mem_cons, List.mem_append]
      exact Or.inr (Or.inr hSA)
  · intro env m hg hRH hvis hshot hfe hfp hclick
    have hauth : exec env revAuthBody =
        ([Event.tried (.waitForSelector "text=ROCKHOUND" 10000),
          Event.print "Auth screen detected",
          Event.tried (.screenshot "verification/2_auth.png"),
          Event.wrote "verification/2_auth.png",
          Event.tried (.fill "input[type=\"email\"]" "admin@rockhound.com"),
          Event.tried (.fill "input[type=\"password\"]" "admin"),
          Event.tried (.click "button:has-text(\"Authenticate\")")],
          some m) := by
      unfold revAuthBody
      rw [exec_step_none hRH, exec_askVisible, hvis]
      simp only [if_true]
      rw [exec_print, exec_step_none hshot, exec_step_none hfe,
        exec_step_none hfp, exec_step_some hclick]
      simp [effectOf]
    have hauth1 := congrArg Prod.fst hauth
    have hauth2 := congrArg Prod.snd hauth
    have hsw1 : (exec env (Prog.print
        "Auth screen not found or already logged in" Prog.done)).1 =
        [Event.print "Auth screen not found or already logged in"] := by
      simp [exec]
    have hsw2 : (exec env (Prog.print
        "Auth screen not found or already logged in" Prog.done)).2 =
        none := by
      simp [exec]
    have hskip2 : ∀ mS, (exec env ((fun _ : String =>
        Prog.print "Splash screen skipped or missed" Prog.done) mS)).2 =
        none := fun mS => by simp [exec]
    have hT1mem : ∀ e,
        e ∈ (exec env revAuthBody).1 ++
          [Event.print "Auth screen not found or already logged in"] →
        e ∈ (exec env (.tryCatch revAuthBody
          (fun _ => .print "Auth screen not found or already logged in" .done)
          revAfterAuth)).1 := by
      intro e he
      rw [exec_tryCatch_caught hauth2 hsw2, hsw1]
      simp only [List.mem_append] at he ⊢
      tauto
    have hT1SA : Event.tried (.waitForSelector "text=SYSTEM ACTIVE" 15000) ∈
        (exec env (.tryCatch revAuthBody
          (fun _ => .print "Auth screen not found or already logged in" .done)
          revAfterAuth)).1 := by
      rw [exec_tryCatch_caught hauth2 hsw2]
      have hSA : Event.tried (.waitForSelector "text=SYSTEM ACTIVE" 15000) ∈
          (exec env revAfterAuth).1 := by
        unfold revAfterAuth; exact tried_mem_step
      simp only [List.mem_append]
      exact Or.inr hSA
    have hbody : (exec env revBody).1 =
        Event.print "Navigating to app..." ::
          Event.tried (.goto "http://localhost:4173" (some 60000)) ::
          (exec env (.tryCatch revSplashBody
            (fun _ => .print "Splash screen skipped or missed" .done)
            (.tryCatch revAuthBody
              (fun _ =>
                .print "Auth screen not found or already logged in" .done)
              revAfterAuth))).1 := by
      unfold revBody
      rw [exec_print, exec_step_none hg]
      simp [effectOf]
    refine ⟨?_, ?_, ?_⟩
    · refine mem_runScenario_of_mem_body ?_
      rw [hbody]
      refine List.mem_cons_of_mem _ (List.mem_cons_of_mem _ ?_)
      refine mem_tryCatch_of_mem_rest hskip2 ?_
      refine hT1mem _ ?_
      rw [hauth1]; simp
    · refine mem_runScenario_of_mem_body ?_
      rw [hbody]
      refine List.mem_cons_of_mem _ (List.mem_cons_of_mem _ ?_)
      refine mem_tryCatch_of_mem_rest hskip2 ?_
      refine hT1mem _ ?_
      simp
    · refine mem_runScenario_of_mem_body ?_
      rw [hbody]
      exact List.mem_cons_of_mem _ (List.mem_cons_of_mem _
        (mem_tryCatch_of_mem_rest hskip2 hT1SA))

/-- Witness for C9 at concrete environments in which exactly one login-form
interaction fails. -/
theorem bare_except_swallows_all_witness :
    (Event.print "Auth screen not found or already logged in" ∈
      (verify_app (envFailOnly
        (.fill "input[type=\"email\"]" "admin@rockhound.com")
        "fill failed")).1) ∧
    (Event.print "Auth screen not found or already logged in" ∈
      (verify_app (envFailOnly
        (.click "button:has-text(\"Initialize Session\")")
        "click failed")).1) ∧
    (Event.print "Auth screen not found or already logged in" ∈
      (verify_app_revolutionary (envFailOnly
        (.click "button:has-text(\"Authenticate\")") "click failed")).1) :=
  ⟨(bare_except_swallows_all.1 (envFailOnly
      (.fill "input[type=\"email\"]" "admin@rockhound.com") "fill failed")
      "fill failed" (by decide) (by decide) (by decide) (by decide)).2.1,
    (bare_except_swallows_all.2.1 (envFailOnly
      (.click "button:has-text(\"Initialize Session\")") "click failed")
      "click failed" (by decide) (by decide) (by decide) (by decide)
      (by decide) (by decide)).2.1,
    (bare_except_swallows_all.2.2 (envFailOnly
      (.click "button:has-text(\"Authenticate\")") "click failed")
      "click failed" (by decide) (by decide) rfl (by decide) (by decide)
      (by decide) (by decide)).2.1⟩

/-! ### C3: an optional-step timeout is swallowed and the scenario
continues -/

/-- C3: in `verify_app.py` and `verify_revolutionary.py`, if the optional
auth-screen wait times out while every other browser call succeeds, the
timeout is swallowed, the miss is logged, and the scenario proceeds through
the mandatory scanner wait and all remaining steps to a normal completion:
the run is the full fixed trace, ending in the browser close, with no
escaping exception. -/
theorem optional_timeout_swallowed :
    (∀ (env : Env) (m : String),
      env.res (.waitForSelector "text=Access Protocol" 5000) = some m →
      (∀ a, a ≠ Action.waitForSelector "text=Access Protocol" 5000 →
        env.res a = none) →
      verify_app env =
        ([Event.tried (.goto "http://localhost:4173" none),
          Event.tried (.waitForSelector "text=Access Protocol" 5000),
          Event.print "Auth screen not found or already logged in",
          Event.tried (.waitForSelector "text=SYSTEM ACTIVE" 10000),
          Event.print "Scanner view detected",
          Event.tried (.screenshot "verification/2_scanner_view.png"),
          Event.wrote "verification/2_scanner_view.png",
          Event.tried (.click "header div.cursor-pointer"),
          Event.tried (.waitForSelector "text=Operative Profile" 5000),
          Event.print "Profile view detected",
          Event.tried (.screenshot "verification/3_profile_view.png"),
          Event.wrote "verification/3_profile_view.png",
          Event.tried (.click "button:has(svg.lucide-x)"),
          Event.tried (.click "button:has(svg.lucide-box)"),
          Event.tried (.waitForSelector "text=Vault" 5000),
          Event.print "Collection view detected",
          Event.tried (.screenshot "verification/4_collection_view.png"),
          Event.wrote "verification/4_collection_view.png",
          Event.closed], none)) ∧
    (∀ (env : Env) (m : String),
      env.res (.waitForSelector "text=ROCKHOUND" 10000) = some m →
      (∀ a, a ≠ Action.waitForSelector "text=ROCKHOUND" 10000 →
        env.res a = none) →
      verify_app_revolutionary env =
        ([Event.print "Navigating to app...",
          Event.tried (.goto "http://localhost:4173" (some 60000)),
          Event.tried (.waitForSelector "text=INITIALIZING KERNEL..." 10000),
          Event.print "Splash screen detected",
          Event.tried (.screenshot "verification/1_splash.png"),
          Event.wrote "verification/1_splash.png",
          Event.tried (.waitForSelector "text=ROCKHOUND" 10000),
          Event.print "Auth screen not found or already logged in",
          Event.tried (.waitForSelector "text=SYSTEM ACTIVE" 15000),
          Event.print "Scanner HUD detected",
          Event.tried (.screenshot "verification/3_scanner_hud.png"),
          Event.wrote "verification/3_scanner_hud.png",
          Event.tried (.click "header button:has(svg.lucide-terminal)"),
          Event.tried (.waitForSelector "text=Mainframe Control" 5000),
          Event.print "Admin Dashboard detected",
          Event.tried (.screenshot "verification/4_admin_dashboard.png"),
          Event.wrote "verification/4_admin_dashboard.png",
          Event.tried (.click "button:has(svg.lucide-arrow-left)"),
          Event.tried (.click "header button:has(svg.lucide-cloud-sun)"),
          Event.tried (.waitForSelector "text=Planetary Conditions" 5000),
          Event.print "Weather Dashboard detected",
          Event.tried (.screenshot "verification/5_weather_dashboard.png"),
          Event.wrote "verification/5_weather_dashboard.png",
          Event.closed], none)) := by
  constructor
  · intro env m hw hrest
    have hg := hrest (.goto "http://localhost:4173" none) (by decide)
    have h1 := hrest (.waitForSelector "text=SYSTEM ACTIVE" 10000) (by decide)
    have h2 := hrest (.screenshot "verification/2_scanner_view.png")
      (by decide)
    have h3 := hrest (.click "header div.cursor-pointer") (by decide)
    have h4 := hrest (.waitForSelector "text=Operative Profile" 5000)
      (by decide)
    have h5 := hrest (.screenshot "verification/3_profile_view.png")
      (by decide)
    have h6 := hrest (.click "button:has(svg.lucide-x)") (by decide)
    have h7 := hrest (.click "button:has(svg.lucide-box)") (by decide)
    have h8 := hrest (.waitForSelector "text=Vault" 5000) (by decide)
    have h9 := hrest (.screenshot "verification/4_collection_view.png")
      (by decide)
    simp [verify_app, runScenario, appBody, appAuthBody, appAfterAuth, exec,
      effectOf, hw, hg, h1, h2, h3, h4, h5, h6, h7, h8, h9]
  · intro env m hw hrest
    have hg := hrest (.goto "http://localhost:4173" (some 60000)) (by decide)
    have h1 := hrest
      (.waitForSelector "text=INITIALIZING KERNEL..." 10000) (by decide)
    have h2 := hrest (.screenshot "verification/1_splash.png") (by decide)
    have h3 := hrest (.waitForSelector "text=SYSTEM ACTIVE" 15000) (by decide)
    have h4 := hrest (.screenshot "verification/3_scanner_hud.png")
      (by decide)
    have h5 := hrest (.click "header button:has(svg.lucide-terminal)")
      (by decide)
    have h6 := hrest (.waitForSelector "text=Mainframe Control" 5000)
      (by decide)
    have h7 := hrest (.screenshot "verification/4_admin_dashboard.png")
      (by decide)
    have h8 := hrest (.click "button:has(svg.lucide-arrow-left)") (by decide)
    have h9 := hrest (.click "header button:has(svg.lucide-cloud-sun)")
      (by decide)
    have h10 := hrest (.waitForSelector "text=Planetary Conditions" 5000)
      (by decide)
    have h11 := hrest (.screenshot "verification/5_weather_dashboard.png")
      (by decide)
    simp [verify_app_revolutionary, runScenario, revBody, revSplashBody,
      revAuthBody, revAfterAuth, exec, effectOf, hw, hg, h1, h2, h3, h4, h5,
      h6, h7, h8, h9, h10, h11]

/-- Witness for C3: concrete environments in which only the optional
auth-screen wait times out. -/
theorem optional_timeout_swallowed_witness :
    ((verify_app (envFailOnly
        (.waitForSelector "text=Access Protocol" 5000)
        "Timeout 5000ms exceeded")).2 = none ∧
      Event.print "Auth screen not found or already logged in" ∈
        (verify_app (envFailOnly
          (.waitForSelector "text=Access Protocol" 5000)
          "Timeout 5000ms exceeded")).1 ∧
      Event.print "Scanner view detected" ∈
        (verify_app (envFailOnly
          (.waitForSelector "text=Access Protocol" 5000)
          "Timeout 5000ms exceeded")).1) ∧
    ((verify_app_revolutionary (envFailOnly
        (.waitForSelector "text=ROCKHOUND" 10000)
        "Timeout 10000ms exceeded")).2 = none ∧
      Event.print "Auth screen not found or already logged in" ∈
        (verify_app_revolutionary (envFailOnly
          (.waitForSelector "text=ROCKHOUND" 10000)
          "Timeout 10000ms exceeded")).1 ∧
      Event.print "Scanner HUD detected" ∈
        (verify_app_revolutionary (envFailOnly
          (.waitForSelector "text=ROCKHOUND" 10000)
          "Timeout 10000ms exceeded")).1) := by
  have h1 := optional_timeout_swallowed.1
    (envFailOnly (.waitForSelector "text=Access Protocol" 5000)
      "Timeout 5000ms exceeded")
    "Timeout 5000ms exceeded" (by decide) (fun a ha => if_neg ha)
  have h2 := optional_timeout_swallowed.2
    (envFailOnly (.waitForSelector "text=ROCKHOUND" 10000)
      "Timeout 10000ms exceeded")
    "Timeout 10000ms exceeded" (by decide) (fun a ha => if_neg ha)
  rw [h1, h2]
  decide

/-! ### C6: steps run in the fixed scenario order -/

theorem exec_withTitle_some {env : Env} {k : String → Prog} {m : String}
    (h : env.res .getTitle = some m) :
    exec env (.withTitle k) = ([Event.tried .getTitle], some m) := by
  simp only [exec, h]

theorem exec_withTitle_none {env : Env} {k : String → Prog}
    (h : env.res .getTitle = none) :
    exec env (.withTitle k) =
      (Event.tried .getTitle :: (exec env (k env.title)).1,
        (exec env (k env.title)).2) := by
  simp only [exec, h]

theorem waitsOf_cons_none {e : Event} {t : List Event}
    (he : waitOf e = none) : waitsOf (e :: t) = waitsOf t := by
  simp [waitsOf, List.filterMap_cons, he]

theorem waitsOf_cons_some {e : Event} {t : List Event} {a : Action}
    (he : waitOf e = some a) : waitsOf (e :: t) = a :: waitsOf t := by
  simp [waitsOf, List.filterMap_cons, he]

theorem waitsOf_append (s t : List Event) :
    waitsOf (s ++ t) = waitsOf s ++ waitsOf t := by
  simp [waitsOf, List.filterMap_append]

theorem waitsOf_effectOf (a : Action) : waitsOf (effectOf a) = [] := by
  cases a <;> rfl

theorem prefix_cons_cons {α : Type} {x : α} {l c : List α} (h : l <+: c) :
    x :: l <+: x :: c := by
  obtain ⟨t, ht⟩ := h
  exact ⟨t, by rw [List.cons_append, ht]⟩

theorem prefix_append_left {α : Type} (x : List α) {l c : List α}
    (h : l <+: c) : x ++ l <+: x ++ c := by
  obtain ⟨t, ht⟩ := h
  exact ⟨t, by rw [List.append_assoc, ht]⟩

theorem prefix_of_eq_nil {α : Type} {l c : List α} (h : l = []) :
    l <+: c := h ▸ List.nil_prefix

theorem waits_done {env : Env} {c : List Action} :
    waitsOf (exec env Prog.done).1 <+: c :=
  prefix_of_eq_nil rfl

theorem waits_print_pre {env : Env} {s : String} {r : Prog}
    {c : List Action} (ih : waitsOf (exec env r).1 <+: c) :
    waitsOf (exec env (.print s r)).1 <+: c := by
  rw [exec_print]
  show waitsOf (Event.print s :: (exec env r).1) <+: c
  rw [waitsOf_cons_none (show waitOf (Event.print s) = none from rfl)]
  exact ih

theorem waits_step_nonwait_pre {env : Env} {a : Action} {r : Prog}
    {c : List Action} (ha : waitOf (Event.tried a) = none)
    (ih : waitsOf (exec env r).1 <+: c) :
    waitsOf (exec env (.step a r)).1 <+: c := by
  cases hres : env.res a with
  | some m =>
      rw [exec_step_some hres]
      show waitsOf [Event.tried a] <+: c
      rw [show waitsOf [Event.tried a] = [] from by
        simp [waitsOf, List.filterMap_cons, ha]]
      exact List.nil_prefix
  | none =>
      rw [exec_step_none hres]
      show waitsOf (Event.tried a :: (effectOf a ++ (exec env r).1)) <+: c
      rw [waitsOf_cons_none ha, waitsOf_append, waitsOf_effectOf]
      simpa using ih

theorem waits_step_wait_pre {env : Env} {s : String} {n : Nat} {r : Prog}
    {c : List Action} (ih : waitsOf (exec env r).1 <+: c) :
    waitsOf (exec env (.step (.waitForSelector s n) r)).1 <+:
      Action.waitForSelector s n :: c := by
  cases hres : env.res (.waitForSelector s n) with
  | some m =>
      rw [exec_step_some hres]
      show waitsOf [Event.tried (.waitForSelector s n)] <+: _
      rw [waitsOf_cons_some (show waitOf (Event.tried (.waitForSelector s n))
        = some (.waitForSelector s n) from rfl)]
      exact prefix_cons_cons List.nil_prefix
  | none =>
      rw [exec_step_none hres]
      show waitsOf (Event.tried (.waitForSelector s n) ::
        (effectOf (.waitForSelector s n) ++ (exec env r).1)) <+: _
      rw [waitsOf_cons_some (show waitOf (Event.tried (.waitForSelector s n))
        = some (.waitForSelector s n) from rfl), waitsOf_append,
        waitsOf_effectOf]
      exact prefix_cons_cons (by simpa using ih)

theorem waitsOf_exec_eq_nil {env : Env} {p : Prog}
    (hn : emitsWithin (fun e => waitOf e = none) p) :
    waitsOf (exec env p).1 = [] := by
  rw [waitsOf, List.filterMap_eq_nil_iff]
  exact exec_emits p hn env

theorem waits_optBody_exact {env : Env} {s : String} {n : Nat} {r : Prog}
    (hr : emitsWithin (fun e => waitOf e = none) r) :
    waitsOf (exec env (.step (.waitForSelector s n) r)).1 =
      [Action.waitForSelector s n] := by
  cases hres : env.res (.waitForSelector s n) with
  | some m =>
      rw [exec_step_some hres]
      rfl
  | none =>
      rw [exec_step_none hres]
      show waitsOf (Event.tried (.waitForSelector s n) ::
        (effectOf (.waitForSelector s n) ++ (exec env r).1)) = _
      rw [waitsOf_cons_some (show waitOf (Event.tried (.waitForSelector s n))
        = some (.waitForSelector s n) from rfl), waitsOf_append,
        waitsOf_effectOf, waitsOf_exec_eq_nil hr]
      rfl

theorem waits_tryCatch_pre_left {env : Env} {b : Prog}
    {h : String → Prog} {r : Prog} {cb cr : List Action}
    (hb : waitsOf (exec env b).1 = cb)
    (hh : ∀ m, waitsOf (exec env (h m)).1 = [])
    (hr : waitsOf (exec env r).1 <+: cr) :
    waitsOf (exec env (.tryCatch b h r)).1 <+: cb ++ cr := by
  cases hb2 : (exec env b).2 with
  | none =>
      rw [congrArg Prod.fst (exec_tryCatch_ok hb2), waitsOf_append, hb]
      exact prefix_append_left cb hr
  | some m =>
      cases hh2 : (exec env (h m)).2 with
      | none =>
          rw [congrArg Prod.fst (exec_tryCatch_caught hb2 hh2),
            waitsOf_append, waitsOf_append, hb, hh m]
          simpa using prefix_append_left cb hr
      | some m2 =>
          rw [congrArg Prod.fst (exec_tryCatch_rethrow hb2 hh2),
            waitsOf_append, hb, hh m]
          simp

theorem waits_tryCatch_pre_handler {env : Env} {b : Prog}
    {h : String → Prog} {cb ch : List Action}
    (hb : waitsOf (exec env b).1 = cb)
    (hh : ∀ m, waitsOf (exec env (h m)).1 <+: ch) :
    waitsOf (exec env (.tryCatch b h .done)).1 <+: cb ++ ch := by
  cases hb2 : (exec env b).2 with
  | none =>
      rw [congrArg Prod.fst (exec_tryCatch_ok hb2), waitsOf_append, hb]
      have : waitsOf (exec env Prog.done).1 = [] := rfl
      rw [this]
      simp
  | some m =>
      cases hh2 : (exec env (h m)).2 with
      | none =>
          rw [congrArg Prod.fst (exec_tryCatch_caught hb2 hh2),
            waitsOf_append, waitsOf_append, hb]
          have : waitsOf (exec env Prog.done).1 = [] := rfl
          rw [this]
          simpa using prefix_append_left cb (hh m)
      | some m2 =>
          rw [congrArg Prod.fst (exec_tryCatch_rethrow hb2 hh2),
            waitsOf_append, hb]
          exact prefix_append_left cb (hh m)

theorem waits_runScenario_pre {env : Env} {b : Prog} {h : String → Prog}
    {c : List Action} (hh : ∀ m, waitsOf (exec env (h m)).1 = [])
    (hb : waitsOf (exec env b).1 <+: c) :
    waitsOf (runScenario b h env).1 <+: c := by
  have hcl : waitsOf [Event.closed] = [] := rfl
  cases hb2 : (exec env b).2 with
  | none =>
      rw [congrArg Prod.fst (runScenario_ok hb2), waitsOf_append, hcl]
      simpa using hb
  | some m =>
      cases hh2 : (exec env (h m)).2 with
      | none =>
          rw [congrArg Prod.fst (runScenario_caught hb2 hh2),
            waitsOf_append, waitsOf_append, hh m, hcl]
          simpa using hb
      | some m2 =>
          rw [congrArg Prod.fst (runScenario_rethrow hb2 hh2),
            waitsOf_append, waitsOf_append, hh m, hcl]
          simpa using hb

/-- The fixed order of marker waits in `verify_app.py`. -/
def appWaitOrder : List Action :=
  [.waitForSelector "text=Access Protocol" 5000,
    .waitForSelector "text=SYSTEM ACTIVE" 10000,
    .waitForSelector "text=Operative Profile" 5000,
    .waitForSelector "text=Vault" 5000]

/-- The fixed order of marker waits in `verify_revolutionary.py`. -/
def revWaitOrder : List Action :=
  [.waitForSelector "text=INITIALIZING KERNEL..." 10000,
    .waitForSelector "text=ROCKHOUND" 10000,
    .waitForSelector "text=SYSTEM ACTIVE" 15000,
    .waitForSelector "text=Mainframe Control" 5000,
    .waitForSelector "text=Planetary Conditions" 5000]

/-- The fixed order of marker waits in `verify_app_debug.py`. -/
def debugWaitOrder : List Action := [.waitForSelector "body" 10000]

/-- The fixed order of marker waits in `verify_fix.py` (the scanner wait is
only reached when the first wait missed). -/
def fixWaitOrder : List Action :=
  [.waitForSelector "text=ROCKHOUND" 10000,
    .waitForSelector "text=SYSTEM ACTIVE" 10000]

theorem app_waits_pre (env : Env) :
    waitsOf (verify_app env).1 <+: appWaitOrder := by
  refine waits_runScenario_pre (fun m => waitsOf_exec_eq_nil
    (by simp [emitsWithin, appHandler, effectOf, waitOf])) ?_
  unfold appBody
  refine waits_step_nonwait_pre rfl ?_
  have hauth : waitsOf (exec env appAuthBody).1 =
      [Action.waitForSelector "text=Access Protocol" 5000] := by
    unfold appAuthBody
    exact waits_optBody_exact (by simp [emitsWithin, effectOf, waitOf])
  have hsw : ∀ m : String, waitsOf (exec env ((fun _ : String =>
      Prog.print "Auth screen not found or already logged in" Prog.done)
      m)).1 = [] := fun m => rfl
  have hafter : waitsOf (exec env appAfterAuth).1 <+:
      [Action.waitForSelector "text=SYSTEM ACTIVE" 10000,
        Action.waitForSelector "text=Operative Profile" 5000,
        Action.waitForSelector "text=Vault" 5000] := by
    unfold appAfterAuth
    exact waits_step_wait_pre (waits_print_pre
      (waits_step_nonwait_pre rfl (waits_step_nonwait_pre rfl
        (waits_step_wait_pre (waits_print_pre
          (waits_step_nonwait_pre rfl (waits_step_nonwait_pre rfl
            (waits_step_nonwait_pre rfl (waits_step_wait_pre
              (waits_print_pre
                (waits_step_nonwait_pre rfl waits_done)))))))))))
  exact waits_tryCatch_pre_left hauth hsw hafter

theorem rev_waits_pre (env : Env) :
    waitsOf (verify_app_revolutionary env).1 <+: revWaitOrder := by
  refine waits_runScenario_pre (fun m => waitsOf_exec_eq_nil
    (by simp [emitsWithin, revHandler, effectOf, waitOf])) ?_
  unfold revBody
  refine waits_print_pre (waits_step_nonwait_pre rfl ?_)
  have hsplash : waitsOf (exec env revSplashBody).1 =
      [Action.waitForSelector "text=INITIALIZING KERNEL..." 10000] := by
    unfold revSplashBody
    exact waits_optBody_exact (by simp [emitsWithin, effectOf, waitOf])
  have hskip : ∀ m : String, waitsOf (exec env ((fun _ : String =>
      Prog.print "Splash screen skipped or missed" Prog.done) m)).1 = [] :=
    fun m => rfl
  have hauth : waitsOf (exec env revAuthBody).1 =
      [Action.waitForSelector "text=ROCKHOUND" 10000] := by
    unfold revAuthBody
    exact waits_optBody_exact
      (by simp [emitsWithin, emitsWithin_ite, effectOf, waitOf])
  have hsw : ∀ m : String, waitsOf (exec env ((fun _ : String =>
      Prog.print "Auth screen not found or already logged in" Prog.done)
      m)).1 = [] := fun m => rfl
  have hafter : waitsOf (exec env revAfterAuth).1 <+:
      [Action.waitForSelector "text=SYSTEM ACTIVE" 15000,
        Action.waitForSelector "text=Mainframe Control" 5000,
        Action.waitForSelector "text=Planetary Conditions" 5000] := by
    unfold revAfterAuth
    exact waits_step_wait_pre (waits_print_pre
      (waits_step_nonwait_pre rfl (waits_step_nonwait_pre rfl
        (waits_step_wait_pre (waits_print_pre
          (waits_step_nonwait_pre rfl (waits_step_nonwait_pre rfl
            (waits_step_nonwait_pre rfl (waits_step_wait_pre
              (waits_print_pre
                (waits_step_nonwait_pre rfl waits_done)))))))))))
  have hinner : waitsOf (exec env (.tryCatch revAuthBody
      (fun _ => .print "Auth screen not found or already logged in" .done)
      revAfterAuth)).1 <+:
      [Action.waitForSelector "text=ROCKHOUND" 10000] ++
        [Action.waitForSelector "text=SYSTEM ACTIVE" 15000,
          Action.waitForSelector "text=Mainframe Control" 5000,
          Action.waitForSelector "text=Planetary Conditions" 5000] :=
    waits_tryCatch_pre_left hauth hsw hafter
  exact waits_tryCatch_pre_left hsplash hskip hinner

theorem debug_waits_pre (env : Env) :
    waitsOf (verify_app_debug env).1 <+: debugWaitOrder := by
  refine waits_runScenario_pre (fun m => waitsOf_exec_eq_nil
    (by simp [emitsWithin, debugHandler, waitOf])) ?_
  unfold debugBody
  refine waits_print_pre (waits_step_nonwait_pre rfl
    (waits_print_pre ?_))
  refine waits_step_wait_pre ?_
  exact prefix_of_eq_nil (waitsOf_exec_eq_nil
    (by simp [emitsWithin, emitsWithin_ite, effectOf, waitOf]))

theorem fix_waits_pre (env : Env) :
    waitsOf (verify_fix env).1 <+: fixWaitOrder := by
  refine waits_runScenario_pre (fun m => waitsOf_exec_eq_nil
    (by simp [emitsWithin, fixHandler, waitOf])) ?_
  unfold fixBody
  refine waits_print_pre (waits_step_nonwait_pre rfl ?_)
  have hfirst : waitsOf (exec env fixFirstBody).1 =
      [Action.waitForSelector "text=ROCKHOUND" 10000] := by
    unfold fixFirstBody
    exact waits_optBody_exact (by simp [emitsWithin, effectOf, waitOf])
  have hsecond : waitsOf (exec env fixSecondBody).1 =
      [Action.waitForSelector "text=SYSTEM ACTIVE" 10000] := by
    unfold fixSecondBody
    exact waits_optBody_exact (by simp [emitsWithin, effectOf, waitOf])
  have hstuck : ∀ m : String, waitsOf (exec env ((fun _ : String =>
      fixStuck) m)).1 <+: ([] : List Action) :=
    fun m => prefix_of_eq_nil (waitsOf_exec_eq_nil
      (by simp [emitsWithin, fixStuck, effectOf, waitOf]))
  have hhandlerA : ∀ m : String, waitsOf (exec env ((fun _ : String =>
      Prog.tryCatch fixSecondBody (fun _ => fixStuck) Prog.done) m)).1 <+:
      [Action.waitForSelector "text=SYSTEM ACTIVE" 10000] := by
    intro m
    have := waits_tryCatch_pre_handler hsecond hstuck
    simpa using this
  exact waits_tryCatch_pre_handler hfirst hhandlerA

/-- C6: in every run of every script, the sequence of marker waits actually
attempted is a prefix of the script's fixed scenario order — so each marker
is waited on at most once, and a later marker's wait can only occur after
every earlier marker's wait has already happened (e.g. in `verify_app.py`
the Vault wait never precedes the Operative Profile wait). -/
theorem steps_in_fixed_order (env : Env) :
    (waitsOf (verify_app env).1 <+: appWaitOrder ∧
      (waitsOf (verify_app env).1).Nodup) ∧
    (waitsOf (verify_app_revolutionary env).1 <+: revWaitOrder ∧
      (waitsOf (verify_app_revolutionary env).1).Nodup) ∧
    (waitsOf (verify_app_debug env).1 <+: debugWaitOrder ∧
      (waitsOf (verify_app_debug env).1).Nodup) ∧
    (waitsOf (verify_fix env).1 <+: fixWaitOrder ∧
      (waitsOf (verify_fix env).1).Nodup) :=
  ⟨⟨app_waits_pre env,
      List.Nodup.sublist (app_waits_pre env).sublist (by decide)⟩,
    ⟨rev_waits_pre env,
      List.Nodup.sublist (rev_waits_pre env).sublist (by decide)⟩,
    ⟨debug_waits_pre env,
      List.Nodup.sublist (debug_waits_pre env).sublist (by decide)⟩,
    ⟨fix_waits_pre env,
      List.Nodup.sublist (fix_waits_pre env).sublist (by decide)⟩⟩

/-! ### C10: verify_app_debug.py is read-only apart from one screenshot -/

theorem writesOf_cons_print {s : String} {t : List Event} :
    writesOf (Event.print s :: t) = writesOf t := by
  simp [writesOf, wroteOf, List.filterMap_cons]

theorem writesOf_cons_tried {a : Action} {t : List Event} :
    writesOf (Event.tried a :: t) = writesOf t := by
  simp [writesOf, wroteOf, List.filterMap_cons]

theorem writesOf_cons_wrote {p : String} {t : List Event} :
    writesOf (Event.wrote p :: t) = p :: writesOf t := by
  simp [writesOf, wroteOf, List.filterMap_cons]

theorem writesOf_append (s t : List Event) :
    writesOf (s ++ t) = writesOf s ++ writesOf t := by
  simp [writesOf, List.filterMap_append]

theorem writesOf_exec_eq_nil {env : Env} {p : Prog}
    (hn : emitsWithin (fun e => wroteOf e = none) p) :
    writesOf (exec env p).1 = [] := by
  rw [writesOf, List.filterMap_eq_nil_iff]
  exact exec_emits p hn env

theorem writesOf_runScenario {env : Env} {b : Prog} {h : String → Prog}
    (hh : ∀ m, writesOf (exec env (h m)).1 = []) :
    writesOf (runScenario b h env).1 = writesOf (exec env b).1 := by
  have hcl : writesOf [Event.closed] = [] := rfl
  cases hb2 : (exec env b).2 with
  | none =>
      rw [congrArg Prod.fst (runScenario_ok hb2), writesOf_append, hcl]
      simp
  | some m =>
      cases hh2 : (exec env (h m)).2 with
      | none =>
          rw [congrArg Prod.fst (runScenario_caught hb2 hh2),
            writesOf_append, writesOf_append, hh m, hcl]
          simp
      | some m2 =>
          rw [congrArg Prod.fst (runScenario_rethrow hb2 hh2),
            writesOf_append, writesOf_append, hh m, hcl]
          simp

/-- The writes of a `verify_app_debug.py` run: empty unless `goto`, the
`body` wait and the screenshot all succeed, in which case exactly the one
debug screenshot. -/
theorem debug_writes_cases (env : Env) :
    writesOf (verify_app_debug env).1 = [] ∨
    (writesOf (verify_app_debug env).1 = ["verification/debug_state.png"] ∧
      env.res (.goto "http://localhost:4173" (some 60000)) = none ∧
      env.res (.waitForSelector "body" 10000) = none) := by
  have hhandler : ∀ m, writesOf (exec env (debugHandler m)).1 = [] :=
    fun m => rfl
  have hrun : writesOf (verify_app_debug env).1 =
      writesOf (exec env debugBody).1 := writesOf_runScenario hhandler
  cases hg : env.res (.goto "http://localhost:4173" (some 60000)) with
  | some m =>
      left
      have hbody : exec env debugBody =
          ([Event.print "Navigating to app...",
            Event.tried (.goto "http://localhost:4173" (some 60000))],
            some m) := by
        unfold debugBody
        rw [exec_print, exec_step_some hg]
      rw [hrun, congrArg Prod.fst hbody]
      rfl
  | none =>
      cases hw : env.res (.waitForSelector "body" 10000) with
      | some m =>
          left
          have hbody : exec env debugBody =
              ([Event.print "Navigating to app...",
                Event.tried (.goto "http://localhost:4173" (some 60000)),
                Event.print "Waiting for body...",
                Event.tried (.waitForSelector "body" 10000)], some m) := by
            unfold debugBody
            rw [exec_print, exec_step_none hg, exec_print, exec_step_some hw]
            simp [effectOf]
          rw [hrun, congrArg Prod.fst hbody]
          rfl
      | none =>
          cases hs : env.res (.screenshot "verification/debug_state.png") with
          | some m =>
              left
              have hbody : exec env debugBody =
                  ([Event.print "Navigating to app...",
                    Event.tried (.goto "http://localhost:4173" (some 60000)),
                    Event.print "Waiting for body...",
                    Event.tried (.waitForSelector "body" 10000),
                    Event.tried (.screenshot "verification/debug_state.png")],
                    some m) := by
                unfold debugBody
                rw [exec_print, exec_step_none hg, exec_print,
                  exec_step_none hw, exec_step_some hs]
                simp [effectOf]
              rw [hrun, congrArg Prod.fst hbody]
              rfl
          | none =>
              right
              have hbody : exec env debugBody =
                  (Event.print "Navigating to app..." ::
                    Event.tried (.goto "http://localhost:4173" (some 60000)) ::
                    Event.print "Waiting for body..." ::
                    Event.tried (.waitForSelector "body" 10000) ::
                    Event.tried (.screenshot "verification/debug_state.png") ::
                    Event.wrote "verification/debug_state.png" ::
                    (exec env debugTail).1, (exec env debugTail).2) := by
                unfold debugBody
                rw [exec_print, exec_step_none hg, exec_print,
                  exec_step_none hw, exec_step_none hs]
                simp [effectOf]
              have htail : writesOf (exec env debugTail).1 = [] :=
                writesOf_exec_eq_nil
                  (by simp [emitsWithin, debugTail, emitsWithin_ite, effectOf,
                    wroteOf])
              refine ⟨?_, rfl, rfl⟩
              rw [hrun, congrArg Prod.fst hbody, writesOf_cons_print,
                writesOf_cons_tried, writesOf_cons_print, writesOf_cons_tried,
                writesOf_cons_tried, writesOf_cons_wrote, htail]

/-- C10: `verify_app_debug.py` never performs any interaction on the page —
no `fill` and no `click` is ever attempted — and it writes at most one
screenshot file per run, always `verification/debug_state.png`, and only
when the `body` selector wait has succeeded (in particular never on the
wait-timeout path). -/
theorem debug_no_interactions (env : Env) :
    (∀ s v, Event.tried (.fill s v) ∉ (verify_app_debug env).1) ∧
    (∀ s, Event.tried (.click s) ∉ (verify_app_debug env).1) ∧
    (writesOf (verify_app_debug env).1).length ≤ 1 ∧
    (∀ p, Event.wrote p ∈ (verify_app_debug env).1 →
      p = "verification/debug_state.png") ∧
    (Event.wrote "verification/debug_state.png" ∈ (verify_app_debug env).1 →
      env.res (.goto "http://localhost:4173" (some 60000)) = none ∧
      env.res (.waitForSelector "body" 10000) = none) := by
  have hP : ∀ e ∈ (verify_app_debug env).1,
      (∀ s v, e ≠ Event.tried (.fill s v)) ∧
        (∀ s, e ≠ Event.tried (.click s)) :=
    runScenario_emits
      (by simp [emitsWithin, debugBody, debugTail, effectOf, emitsWithin_ite])
      (fun m => by simp [emitsWithin, debugHandler])
      (by simp) env
  refine ⟨fun s v hmem => (hP _ hmem).1 s v rfl,
    fun s hmem => (hP _ hmem).2 s rfl, ?_, ?_, ?_⟩
  · rcases debug_writes_cases env with h | ⟨h, _, _⟩ <;> rw [h] <;> simp
  · intro p hmem
    have := runScenario_emits debug_writesIn.1 debug_writesIn.2
      (by simp [WritesIn]) env _ hmem p rfl
    simpa [debugShots] using this
  · intro hmem
    rcases debug_writes_cases env with h | ⟨h, hg, hw⟩
    · exact absurd (mem_writesOf.mpr hmem) (by rw [h]; simp)
    · exact ⟨hg, hw⟩

/-- Witness for C10 at concrete environments: the all-success run writes
exactly the debug screenshot; the body-wait-timeout run writes nothing. -/
theorem debug_no_interactions_witness :
    ((writesOf (verify_app_debug envAllOk).1).length ≤ 1 ∧
      Event.tried (.click "header div.cursor-pointer") ∉
        (verify_app_debug envAllOk).1) ∧
    (writesOf (verify_app_debug envC2).1).length ≤ 1 :=
  ⟨⟨(debug_no_interactions envAllOk).2.2.1,
      (debug_no_interactions envAllOk).2.1 "header div.cursor-pointer"⟩,
    (debug_no_interactions envC2).2.2.1⟩

end Rockhound
